import Mathlib

/-
Shallow embedding of the library-management program in Practica1.py:
the catalog of books (Libro), magazines (Revista) and movies (Pelicula),
the patrons (Socio, Ocasional), and the loan / consultation / renewal /
return state machine, together with the persistence round trip.

Python dicts are modelled as association lists; dates are modelled as
day numbers (the source stores fixed-width ISO strings, whose
lexicographic order agrees with day order, and all date arithmetic in
the source is whole days).
-/

/-- Zero-padded 10-digit rendering of a counter, mirroring the format
string used by every id generator of the source. -/
def pad10 (n : Nat) : String :=
  let s := toString n
  String.mk (List.replicate (10 - s.length) '0') ++ s

/-- Lookup in an association list modelling a Python dict. -/
def dlookup {κ α : Type} [DecidableEq κ] (k : κ) : List (κ × α) → Option α
  | [] => none
  | (k2, v) :: rest => if k2 = k then some v else dlookup k rest

/-- Remove every binding of a key, modelling Python del / key overwrite. -/
def derase {κ α : Type} [DecidableEq κ] (k : κ) : List (κ × α) → List (κ × α)
  | [] => []
  | (k2, v) :: rest => if k2 = k then derase k rest else (k2, v) :: derase k rest

/-- Model of a dict assignment d[k] = v. -/
def dinsert {κ α : Type} [DecidableEq κ] (k : κ) (v : α) (d : List (κ × α)) :
    List (κ × α) :=
  (k, v) :: derase k d

theorem mem_derase {κ α : Type} [DecidableEq κ] {k : κ} {d : List (κ × α)} {x : κ × α}
    (h : x ∈ derase k d) : x ∈ d := by
  induction d with
  | nil => simp [derase] at h
  | cons hd tl ih =>
    obtain ⟨k2, v⟩ := hd
    by_cases hk : k2 = k
    · simp [derase, hk] at h
      exact List.mem_cons_of_mem _ (ih h)
    · simp [derase, hk] at h
      rcases h with h | h
      · simp [h]
      · exact List.mem_cons_of_mem _ (ih h)

theorem mem_dinsert {κ α : Type} [DecidableEq κ] {k : κ} {v : α} {d : List (κ × α)}
    {x : κ × α} (h : x ∈ dinsert k v d) : x = (k, v) ∨ x ∈ d := by
  rcases List.mem_cons.mp h with h | h
  · exact Or.inl h
  · exact Or.inr (mem_derase h)

theorem dlookup_mem {κ α : Type} [DecidableEq κ] {k : κ} {d : List (κ × α)} {v : α}
    (h : dlookup k d = some v) : (k, v) ∈ d := by
  induction d with
  | nil => simp [dlookup] at h
  | cons hd tl ih =>
    obtain ⟨k2, w⟩ := hd
    by_cases hk : k2 = k
    · simp [dlookup, hk] at h
      simp [hk, h]
    · simp [dlookup, hk] at h
      exact List.mem_cons_of_mem _ (ih h)

/-! Data model, one structure per dataclass of the source. -/

/-- Dataclass Libro (fields in source order). -/
structure Libro where
  id : String
  descripcion : String
  autor : String
  titulo : String
  editorial : String
deriving DecidableEq

/-- Dataclass EjemplarLibro: a physical copy of a book. The source stores
the dict of the owning book in the libro field; estado_accion is one of
"", "Prestamo", "Consulta". -/
structure EjemplarLibro where
  libro : Libro
  nro_ejemplar : Nat
  estado_accion : String
deriving DecidableEq

/-- Dataclass Revista: magazines carry their consultation flag directly. -/
structure Revista where
  id : String
  descripcion : String
  nombre : String
  fecha_publicacion : String
  editorial : String
  estado_consulta : Bool
deriving DecidableEq

/-- Dataclass Pelicula. -/
structure Pelicula where
  id : String
  descripcion : String
  titulo : String
  actores_principales : List String
  actores_secundarios : List String
  fecha_publicacion : String
deriving DecidableEq

/-- The two movie copy dataclasses PeliculaBiblioteca (estado_local) and
PeliculaPrestamo (estado_prestamo), stored mixed in one list. -/
inductive EjemplarPelicula where
  | biblioteca (pelicula : Pelicula) (estado_local : Bool)
  | prestamo (pelicula : Pelicula) (estado_prestamo : Bool)
deriving DecidableEq

/-- Dataclass Socio. Consultation date and time are absent until a
consultation is opened. -/
structure Socio where
  nif : String
  nombre : String
  telefono : String
  direccion : String
  nro_socio : String
  ejemplares_prestados : List String
  recurso_en_consulta : Option String
  fecha_solicitud_consulta : Option Nat
  hora_solicitud_consulta : Option String
deriving DecidableEq

/-- Dataclass Ocasional: a walk-in user, no member number, no loans. -/
structure Ocasional where
  nif : String
  nombre : String
  telefono : String
  direccion : String
  recurso_en_consulta : Option String
  fecha_solicitud_consulta : Option Nat
  hora_solicitud_consulta : Option String
deriving DecidableEq

/-- The id_recurso dict snapshot stored inside a loan or consultation
record: either a book-copy dict (with its embedded libro dict), a
revista dict, or a pelicula dict. -/
inductive RecursoRef where
  | ejemplarLibro (libro : Libro) (nro_ejemplar : Nat) (estado_accion : String)
  | revista (r : Revista)
  | pelicula (p : Pelicula)
deriving DecidableEq

/-- Dataclass Prestamo (fields in source constructor order). -/
structure Prestamo where
  nif : String
  id_uso : String
  id_recurso : RecursoRef
  fecha_solicitud : Nat
  hora_solicitud : String
  nro_socio : String
  fecha_max_devolucion : Nat
  fecha_devuelto : Option Nat
  renovacion : Nat
deriving DecidableEq

/-- Dataclass Consulta. -/
structure Consulta where
  nif : String
  id_uso : String
  id_recurso : RecursoRef
  fecha_solicitud : Nat
  hora_solicitud : String
  hora_devolucion : Option String
deriving DecidableEq

/-- The whole mutable state of class Biblioteca. revistas is a Python
set, modelled as a list; the four dicts keyed by strings and the two
keyed by resources are association lists. -/
structure Biblioteca where
  libros : List (Libro × List EjemplarLibro)
  revistas : List Revista
  peliculas : List (Pelicula × List EjemplarPelicula)
  prestamos : List (String × Prestamo)
  consultas : List (String × Consulta)
  socios : List (String × Socio)
  ocasionales : List (String × Ocasional)
  nro_prestamo : Nat
  nro_id_libro : Nat
  nro_id_revista : Nat
  nro_id_pelicula : Nat
  nro_socio : Nat
  nro_consulta : Nat
deriving DecidableEq

/-- The state built by Biblioteca.__init__. -/
def Biblioteca.init : Biblioteca :=
  ⟨[], [], [], [], [], [], [], 0, 0, 0, 0, 0, 0⟩

/-- A resource as selected by encontrar_recurso. -/
inductive Recurso where
  | libro (l : Libro)
  | revista (r : Revista)
  | pelicula (p : Pelicula)
deriving DecidableEq

/-- A unit of inventory as returned by comprobar_estado_recurso. -/
inductive Unidad where
  | ejemplar (e : EjemplarLibro)
  | revista (r : Revista)
  | peliculaCopia (e : EjemplarPelicula)
deriving DecidableEq

/-- The loan branch of comprobar_estado_recurso for a book, lines
2086-2097 of the source: the loop keeps two flags; the first free copy
only sets ejemplar_disponible, a copy in "Consulta" sets
ejemplar_en_consulta, and a later free copy is returned only when one of
the flags is already set; otherwise the for-else returns None. -/
def buscarEjemplarParaPrestamo :
    List EjemplarLibro → Bool → Bool → Option EjemplarLibro
  | [], _, _ => none
  | e :: rest, disponible, enConsulta =>
    if e.estado_accion = "" ∧ disponible = false then
      buscarEjemplarParaPrestamo rest true enConsulta
    else if e.estado_accion = "Consulta" then
      buscarEjemplarParaPrestamo rest disponible true
    else if e.estado_accion = "" ∧ (disponible = true ∨ enConsulta = true) then
      some e
    else
      buscarEjemplarParaPrestamo rest disponible enConsulta

/-- The consultation branch for a book: the first copy whose
estado_accion is the empty string. -/
def buscarEjemplarParaConsulta : List EjemplarLibro → Option EjemplarLibro
  | [] => none
  | e :: rest =>
    if e.estado_accion = "" then some e else buscarEjemplarParaConsulta rest

/-- The loan branch for a movie: the loop returns at the first
PeliculaPrestamo copy, None when it is on loan. -/
def buscarPeliculaPrestamo : List EjemplarPelicula → Option EjemplarPelicula
  | [] => none
  | .prestamo p est :: _ => if est then none else some (.prestamo p est)
  | .biblioteca _ _ :: rest => buscarPeliculaPrestamo rest

/-- The consultation branch for a movie: the loop returns at the first
PeliculaBiblioteca copy, None when it is in use. -/
def buscarPeliculaBiblioteca : List EjemplarPelicula → Option EjemplarPelicula
  | [] => none
  | .biblioteca p est :: _ => if est then none else some (.biblioteca p est)
  | .prestamo _ _ :: rest => buscarPeliculaBiblioteca rest

/-- comprobar_estado_recurso, lines 2083-2126. A missing dict key would
raise KeyError in Python; the flows below only reach this function with
resources present in the catalog, so the none default is never hit
there. Magazines fall through the loan branch and yield None. -/
def comprobar_estado_recurso (b : Biblioteca) (recurso : Recurso)
    (consulta : Bool) : Option Unidad :=
  if consulta = false then
    match recurso with
    | .libro l =>
      match dlookup l b.libros with
      | some ejs => (buscarEjemplarParaPrestamo ejs false false).map Unidad.ejemplar
      | none => none
    | .pelicula p =>
      match dlookup p b.peliculas with
      | some ejs => (buscarPeliculaPrestamo ejs).map Unidad.peliculaCopia
      | none => none
    | .revista _ => none
  else
    match recurso with
    | .libro l =>
      match dlookup l b.libros with
      | some ejs => (buscarEjemplarParaConsulta ejs).map Unidad.ejemplar
      | none => none
    | .revista r => if r.estado_consulta then none else some (.revista r)
    | .pelicula p =>
      match dlookup p b.peliculas with
      | some ejs => (buscarPeliculaBiblioteca ejs).map Unidad.peliculaCopia
      | none => none

/-! Sequence generators and catalog operations. -/

/-- generar_id_recurso, lines 177-187: bumps the per-type counter and
returns the letter-prefixed padded id; an unknown type falls off the
if-chain and returns None without touching any counter. -/
def generar_id_recurso (b : Biblioteca) (tipo : String) : Biblioteca × Option String :=
  if tipo = "libro" then
    ({ b with nro_id_libro := b.nro_id_libro + 1 },
     some ("L" ++ pad10 (b.nro_id_libro + 1)))
  else if tipo = "revista" then
    ({ b with nro_id_revista := b.nro_id_revista + 1 },
     some ("R" ++ pad10 (b.nro_id_revista + 1)))
  else if tipo = "pelicula" then
    ({ b with nro_id_pelicula := b.nro_id_pelicula + 1 },
     some ("P" ++ pad10 (b.nro_id_pelicula + 1)))
  else (b, none)

/-- generar_nro_socio, lines 189-192. -/
def generar_nro_socio (b : Biblioteca) : Biblioteca × String :=
  ({ b with nro_socio := b.nro_socio + 1 }, "S" ++ pad10 (b.nro_socio + 1))

/-- generar_nro_consulta, lines 194-197. -/
def generar_nro_consulta (b : Biblioteca) : Biblioteca × String :=
  ({ b with nro_consulta := b.nro_consulta + 1 }, "CON-" ++ pad10 (b.nro_consulta + 1))

/-- generar_nro_prestamo, lines 199-202. -/
def generar_nro_prestamo (b : Biblioteca) : Biblioteca × String :=
  ({ b with nro_prestamo := b.nro_prestamo + 1 }, "PREST-" ++ pad10 (b.nro_prestamo + 1))

/-- buscar_libro, lines 1940-1945: exact match on title, author and
publisher over the dict keys. -/
def buscar_libro (b : Biblioteca) (titulo autor editorial : String) : Option Libro :=
  (b.libros.map Prod.fst).find?
    (fun l => decide (l.titulo = titulo ∧ l.autor = autor ∧ l.editorial = editorial))

/-- buscar_revista, lines 1947-1952. -/
def buscar_revista (b : Biblioteca) (nombre fecha_publicacion editorial : String) :
    Option Revista :=
  b.revistas.find?
    (fun r => decide (r.nombre = nombre ∧ r.fecha_publicacion = fecha_publicacion ∧
      r.editorial = editorial))

/-- buscar_pelicula, lines 1954-1959. -/
def buscar_pelicula (b : Biblioteca) (titulo fecha_publicacion : String) :
    Option Pelicula :=
  (b.peliculas.map Prod.fst).find?
    (fun p => decide (p.titulo = titulo ∧ p.fecha_publicacion = fecha_publicacion))

/-- Copy numbers 1..n for a freshly created book, line 1458-1459. -/
def rangoEjemplares (l : Libro) : Nat → Nat → List EjemplarLibro
  | _, 0 => []
  | inicio, n + 1 => ⟨l, inicio, ""⟩ :: rangoEjemplares l (inicio + 1) n

/-- Adding n copies to an existing book, lines 1421-1422: each new copy
gets the number of the current last copy plus one (recomputed after each
append). Python would raise IndexError on an empty list; the getD 0
default mirrors the numbering restarting at 1 in that unreached case. -/
def agregarEjemplaresExistentes (l : Libro) (ejs : List EjemplarLibro) :
    Nat → List EjemplarLibro
  | 0 => ejs
  | n + 1 =>
    let ultimo := ((ejs.getLast?).map (fun e => e.nro_ejemplar)).getD 0
    agregarEjemplaresExistentes l (ejs ++ [⟨l, ultimo + 1, ""⟩]) n

/-- configurar_libro, lines 1369-1463, restricted to its state effect:
add copies to an existing exact-match book, or create the book with a
fresh id and copies numbered from 1. -/
def configurar_libro (b : Biblioteca) (titulo autor editorial descripcion : String)
    (n : Nat) : Biblioteca :=
  match buscar_libro b titulo autor editorial with
  | some l =>
    let ejs := (dlookup l b.libros).getD []
    { b with libros := dinsert l (agregarEjemplaresExistentes l ejs n) b.libros }
  | none =>
    let g := generar_id_recurso b "libro"
    let b1 := g.1
    let l : Libro := ⟨g.2.getD "", descripcion, autor, titulo, editorial⟩
    { b1 with libros := dinsert l (rangoEjemplares l 1 n) b1.libros }

/-- configurar_revista, lines 1465-1512: duplicates are rejected,
otherwise the magazine is added to the set with a fresh id. -/
def configurar_revista (b : Biblioteca)
    (nombre fecha_publicacion editorial descripcion : String) : Biblioteca :=
  match buscar_revista b nombre fecha_publicacion editorial with
  | some _ => b
  | none =>
    let g := generar_id_recurso b "revista"
    let b1 := g.1
    let r : Revista := ⟨g.2.getD "", descripcion, nombre, fecha_publicacion, editorial, false⟩
    { b1 with revistas := r :: b1.revistas }

/-- configurar_pelicula, lines 1514-1658, state effect only. A new movie
gets one consultation copy (n = 1) or both copies (n = 2). For an
existing movie the total may not exceed 2; adding one copy appends the
loan copy when the first element is the consultation copy and otherwise
inserts the consultation copy at the front (Python raises IndexError on
an empty copy list there; the flows verified below never pass one). -/
def configurar_pelicula (b : Biblioteca) (titulo fecha_publicacion : String)
    (actores_principales actores_secundarios : List String) (descripcion : String)
    (n : Nat) : Biblioteca :=
  match buscar_pelicula b titulo fecha_publicacion with
  | some p =>
    let ejs := (dlookup p b.peliculas).getD []
    if ejs.length + n > 2 then b
    else if n = 1 then
      match ejs with
      | .biblioteca q est :: rest =>
        let nuevos := (EjemplarPelicula.biblioteca q est :: rest) ++ [.prestamo p false]
        { b with peliculas := dinsert p nuevos b.peliculas }
      | _ =>
        { b with peliculas := dinsert p (.biblioteca p false :: ejs) b.peliculas }
    else
      { b with peliculas :=
          dinsert p [.biblioteca p false, .prestamo p false] b.peliculas }
  | none =>
    let g := generar_id_recurso b "pelicula"
    let b1 := g.1
    let p : Pelicula := ⟨g.2.getD "", descripcion, titulo, actores_principales,
      actores_secundarios, fecha_publicacion⟩
    if n = 1 then
      { b1 with peliculas := dinsert p [.biblioteca p false] b1.peliculas }
    else
      { b1 with peliculas := dinsert p [.biblioteca p false, .prestamo p false] b1.peliculas }

/-- Errors raised by the removal screens; resourceInUse stands for the
"no se puede eliminar porque está en uso" refusals. -/
inductive ErrorEliminar where
  | resourceInUse
  | noEncontrado
deriving DecidableEq

/-- The (T)odos branch when deleting the copies of a book, lines
420-430: refuses if any copy is busy, otherwise empties the list. -/
def eliminar_ejemplares_libro_todos (b : Biblioteca) (l : Libro) :
    Except ErrorEliminar Biblioteca :=
  match dlookup l b.libros with
  | none => .error .noEncontrado
  | some ejs =>
    if ejs.any (fun e => decide (e.estado_accion ≠ "")) then .error .resourceInUse
    else .ok { b with libros := dinsert l [] b.libros }

/-- The copies selected for deletion, lines 454-462: copy numbers that
resolve to a currently free copy; busy copies are skipped. -/
def seleccionarLibres (ejs : List EjemplarLibro) : List Nat → List EjemplarLibro
  | [] => []
  | n :: rest =>
    match ejs.find? (fun e => decide (e.nro_ejemplar = n)) with
    | some e =>
      if e.estado_accion = "" then e :: seleccionarLibres ejs rest
      else seleccionarLibres ejs rest
    | none => seleccionarLibres ejs rest

/-- Remove the first copy carrying a given number, the inner loop of
lines 481-485. -/
def quitarPorNro (n : Nat) : List EjemplarLibro → List EjemplarLibro
  | [] => []
  | e :: rest => if e.nro_ejemplar = n then rest else e :: quitarPorNro n rest

/-- The removal loop of lines 481-485. -/
def quitarEjemplares : List EjemplarLibro → List EjemplarLibro → List EjemplarLibro
  | ejs, [] => ejs
  | ejs, e :: rest => quitarEjemplares (quitarPorNro e.nro_ejemplar ejs) rest

/-- Deleting a selection of book copies, lines 445-506: only the free
copies among the selection are removed; when none qualifies nothing
changes. -/
def eliminar_ejemplares_libro_sel (b : Biblioteca) (l : Libro) (sel : List Nat) :
    Biblioteca :=
  match dlookup l b.libros with
  | none => b
  | some ejs =>
    match seleccionarLibres ejs sel with
    | [] => b
    | elegidos => { b with libros := dinsert l (quitarEjemplares ejs elegidos) b.libros }

/-- Popping a book whose copy list is empty, after the operator confirms
(lines 402-404, 435-436, 492-493). -/
def eliminar_libro (b : Biblioteca) (l : Libro) : Biblioteca :=
  match dlookup l b.libros with
  | some [] => { b with libros := derase l b.libros }
  | _ => b

/-- Deleting a magazine, lines 508-524: refused while in consultation. -/
def eliminar_revista (b : Biblioteca) (r : Revista) : Except ErrorEliminar Biblioteca :=
  if r.estado_consulta then .error .resourceInUse
  else .ok { b with revistas := b.revistas.filter (fun x => decide (x ≠ r)) }

/-- Which movie copy the operator picks on the removal screen. -/
inductive SelPelicula where
  | C
  | P
  | T
deriving DecidableEq

/-- Drop the first consultation copy, lines 585-589. -/
def quitarPrimeraBiblioteca : List EjemplarPelicula → List EjemplarPelicula
  | [] => []
  | .biblioteca _ _ :: rest => rest
  | e :: rest => e :: quitarPrimeraBiblioteca rest

/-- Drop the first loan copy, lines 591-595. -/
def quitarPrimeraPrestamo : List EjemplarPelicula → List EjemplarPelicula
  | [] => []
  | .prestamo _ _ :: rest => rest
  | e :: rest => e :: quitarPrimeraPrestamo rest

/-- Deleting movie copies, lines 584-597: the chosen copy is removed, and
the (T)odo branch empties the list, with no check at all of the
estado_local / estado_prestamo flags (unlike the book and magazine
branches). -/
def eliminar_ejemplar_pelicula (b : Biblioteca) (p : Pelicula) (sel : SelPelicula) :
    Biblioteca :=
  match dlookup p b.peliculas with
  | none => b
  | some ejs =>
    match sel with
    | .C => { b with peliculas := dinsert p (quitarPrimeraBiblioteca ejs) b.peliculas }
    | .P => { b with peliculas := dinsert p (quitarPrimeraPrestamo ejs) b.peliculas }
    | .T => { b with peliculas := dinsert p [] b.peliculas }

/-- Popping a movie whose copy list is empty, lines 548-549, 606-607. -/
def eliminar_pelicula (b : Biblioteca) (p : Pelicula) : Biblioteca :=
  match dlookup p b.peliculas with
  | some [] => { b with peliculas := derase p b.peliculas }
  | _ => b

/-! Patron registry operations. -/

/-- The registration flow mostrar_menu_añadir_socio, lines 1091-1163:
an existing NIF lets the operator cancel (no mutation); a new NIF gets a
fresh member number and an empty loan list. -/
def alta_socio (b : Biblioteca) (nif nombre telefono direccion : String) : Biblioteca :=
  match dlookup nif b.socios with
  | some _ => b
  | none =>
    let g := generar_nro_socio b
    let b1 := g.1
    let socio : Socio := ⟨nif, nombre, telefono, direccion, g.2, [], none, none, none⟩
    { b1 with socios := dinsert nif socio b1.socios }

inductive ErrorSocio where
  | noExiste
  | patronHasActiveHoldings
deriving DecidableEq

/-- mostrar_menu_eliminar_socio, lines 1166-1245: deletion is refused
while the member has open loans or an open consultation. -/
def eliminar_socio (b : Biblioteca) (nif : String) : Except ErrorSocio Biblioteca :=
  match dlookup nif b.socios with
  | none => .error .noExiste
  | some socio =>
    if socio.ejemplares_prestados ≠ [] ∨ socio.recurso_en_consulta.isSome then
      .error .patronHasActiveHoldings
    else .ok { b with socios := derase nif b.socios }

inductive ErrorConsulta where
  | alreadyConsulting
  | attributeError
  | noCopyAvailable
deriving DecidableEq

/-- Biblioteca.agregar_ocasional, lines 169-171: the method executes
self.ocasionales.append(ocasional), but __init__ (line 142) initialises
ocasionales as a dict, and Python dicts have no append attribute, so the
call raises AttributeError before any mutation happens. -/
def agregar_ocasional (_ : Biblioteca) (_ : Ocasional) :
    Except ErrorConsulta Biblioteca :=
  .error .attributeError

/-! The lending engine. -/

inductive ErrorPrestamo where
  | socioNoExiste
  | quotaExceeded
  | noCopyAvailable
  | duplicateHolding
deriving DecidableEq

/-- Update the state of the chosen book copy in place (the source
mutates the very object that the search returned). -/
def marcarEjemplar (ejs : List EjemplarLibro) (e : EjemplarLibro) (nuevo : String) :
    List EjemplarLibro :=
  match ejs with
  | [] => []
  | x :: rest =>
    if x = e then { x with estado_accion := nuevo } :: rest
    else x :: marcarEjemplar rest e nuevo

/-- Set the estado_prestamo flag of the first loan copy, the copy that
buscarPeliculaPrestamo returned. -/
def marcarPeliculaPrestamo : List EjemplarPelicula → Bool → List EjemplarPelicula
  | [], _ => []
  | .prestamo p _ :: rest, v => .prestamo p v :: rest
  | e :: rest, v => e :: marcarPeliculaPrestamo rest v

/-- Set the estado_local flag of the first consultation copy. -/
def marcarPeliculaBiblioteca : List EjemplarPelicula → Bool → List EjemplarPelicula
  | [], _ => []
  | .biblioteca p _ :: rest, v => .biblioteca p v :: rest
  | e :: rest, v => e :: marcarPeliculaBiblioteca rest v

/-- The duplicate-title guard of lines 717-724: scan the open-loan ids,
reconstruct Libro(**id_recurso["libro"]) for the book-shaped records and
compare with the requested book. -/
def tieneLibroEnPrestamo (b : Biblioteca) (socio : Socio) (l : Libro) : Bool :=
  socio.ejemplares_prestados.any (fun pid =>
    match dlookup pid b.prestamos with
    | some pr =>
      match pr.id_recurso with
      | .ejemplarLibro libro _ _ => decide (libro = l)
      | _ => false
    | none => false)

/-- Lines 733-747: generate the loan id, compute due = request + 7 days,
store the record and append its id to the member's list. In the source
the request date is entered interactively; here it is the dia argument. -/
def finalizarPrestamo (b : Biblioteca) (socio : Socio) (nif : String)
    (ref : RecursoRef) (dia : Nat) (hora : String) : Except ErrorPrestamo Biblioteca :=
  let g := generar_nro_prestamo b
  let b1 := g.1
  let id_prestamo := g.2
  let fecha_max := dia + 7
  let pr : Prestamo :=
    ⟨socio.nif, id_prestamo, ref, dia, hora, socio.nro_socio, fecha_max, none, 0⟩
  let socio2 :=
    { socio with ejemplares_prestados := socio.ejemplares_prestados ++ [id_prestamo] }
  .ok { b1 with prestamos := dinsert id_prestamo pr b1.prestamos,
                socios := dinsert nif socio2 b1.socios }

/-- The loan branch of mostrar_menu_prestamo_consulta, lines 669-751:
member lookup, quota guard, availability check, duplicate-title guard
(books only), copy marking and record creation. The stored id_recurso is
the post-mutation copy dict for books and the pelicula dict for movies. -/
def abrir_prestamo (b : Biblioteca) (nif : String) (recurso : Recurso)
    (dia : Nat) (hora : String) : Except ErrorPrestamo Biblioteca :=
  match dlookup nif b.socios with
  | none => .error .socioNoExiste
  | some socio =>
    if socio.ejemplares_prestados.length ≥ 3 then .error .quotaExceeded
    else
      match comprobar_estado_recurso b recurso false with
      | none => .error .noCopyAvailable
      | some u =>
        match recurso, u with
        | .libro l, .ejemplar e =>
          if tieneLibroEnPrestamo b socio l then .error .duplicateHolding
          else
            let ejs := (dlookup l b.libros).getD []
            let b1 := { b with libros := dinsert l (marcarEjemplar ejs e "Prestamo") b.libros }
            finalizarPrestamo b1 socio nif (.ejemplarLibro e.libro e.nro_ejemplar "Prestamo") dia hora
        | .pelicula p, _ =>
          let ejs := (dlookup p b.peliculas).getD []
          let b1 := { b with peliculas := dinsert p (marcarPeliculaPrestamo ejs true) b.peliculas }
          finalizarPrestamo b1 socio nif (.pelicula p) dia hora
        | _, _ => .error .noCopyAvailable

/-- Replace a magazine of the set by its in-consultation version. -/
def marcarRevista : List Revista → Revista → Bool → List Revista
  | [], _, _ => []
  | x :: rest, r, v =>
    if x = r then { x with estado_consulta := v } :: rest
    else x :: marcarRevista rest r v

/-- Lines 831-844: mark the unit that comprobar_estado_recurso returned
and build the id_recurso snapshot that the Consulta record will store:
the post-mutation copy dict for books, the post-mutation revista dict
for magazines, and the pelicula dict (not the copy) for movies. -/
def marcarConsulta (b : Biblioteca) (recurso : Recurso) (u : Unidad) :
    Biblioteca × RecursoRef :=
  match recurso, u with
  | .libro l, .ejemplar e =>
    let ejs := (dlookup l b.libros).getD []
    ({ b with libros := dinsert l (marcarEjemplar ejs e "Consulta") b.libros },
     .ejemplarLibro e.libro e.nro_ejemplar "Consulta")
  | .revista r, _ =>
    ({ b with revistas := marcarRevista b.revistas r true },
     .revista { r with estado_consulta := true })
  | .pelicula p, _ =>
    let ejs := (dlookup p b.peliculas).getD []
    ({ b with peliculas := dinsert p (marcarPeliculaBiblioteca ejs true) b.peliculas },
     .pelicula p)
  | .libro _, _ =>
    (b, .ejemplarLibro ⟨"", "", "", "", ""⟩ 0 "")

/-- generar_consulta, lines 1961-1963. -/
def generar_consulta (nif id_uso : String) (id_recurso : RecursoRef) (fecha : Nat)
    (hora : String) : Consulta :=
  ⟨nif, id_uso, id_recurso, fecha, hora, none⟩

/-- Lines 824-861 for a member: mark the unit, create the record, set
the member's open consultation fields. -/
def registrar_consulta_socio (b : Biblioteca) (nif : String) (socio : Socio)
    (recurso : Recurso) (fecha : Nat) (hora : String) : Except ErrorConsulta Biblioteca :=
  match comprobar_estado_recurso b recurso true with
  | none => .error .noCopyAvailable
  | some u =>
    let mc := marcarConsulta b recurso u
    let b1 := mc.1
    let g := generar_nro_consulta b1
    let b2 := g.1
    let id_consulta := g.2
    let c := generar_consulta socio.nif id_consulta mc.2 fecha hora
    let socio2 := { socio with recurso_en_consulta := some id_consulta,
                               fecha_solicitud_consulta := some fecha,
                               hora_solicitud_consulta := some hora }
    .ok { b2 with consultas := dinsert id_consulta c b2.consultas,
                  socios := dinsert nif socio2 b2.socios }

/-- Lines 824-861 for a casual user. -/
def registrar_consulta_ocasional (b : Biblioteca) (nif : String) (oc : Ocasional)
    (recurso : Recurso) (fecha : Nat) (hora : String) : Except ErrorConsulta Biblioteca :=
  match comprobar_estado_recurso b recurso true with
  | none => .error .noCopyAvailable
  | some u =>
    let mc := marcarConsulta b recurso u
    let b1 := mc.1
    let g := generar_nro_consulta b1
    let b2 := g.1
    let id_consulta := g.2
    let c := generar_consulta oc.nif id_consulta mc.2 fecha hora
    let oc2 := { oc with recurso_en_consulta := some id_consulta,
                         fecha_solicitud_consulta := some fecha,
                         hora_solicitud_consulta := some hora }
    .ok { b2 with consultas := dinsert id_consulta c b2.consultas,
                  ocasionales := dinsert nif oc2 b2.ocasionales }

/-- The consultation branch of mostrar_menu_prestamo_consulta, lines
752-865: members are looked up first, then casual users; an unknown NIF
goes through walk-in registration, whose agregar_ocasional call raises
AttributeError, so the whole operation aborts there. -/
def abrir_consulta (b : Biblioteca) (nif nombre telefono direccion : String)
    (recurso : Recurso) (fecha : Nat) (hora : String) : Except ErrorConsulta Biblioteca :=
  match dlookup nif b.socios with
  | some socio =>
    if socio.recurso_en_consulta.isSome then .error .alreadyConsulting
    else registrar_consulta_socio b nif socio recurso fecha hora
  | none =>
    match dlookup nif b.ocasionales with
    | some oc =>
      if oc.recurso_en_consulta.isSome then .error .alreadyConsulting
      else registrar_consulta_ocasional b nif oc recurso fecha hora
    | none =>
      match agregar_ocasional b ⟨nif, nombre, telefono, direccion, none, none, none⟩ with
      | .error e => .error e
      | .ok b1 =>
        registrar_consulta_ocasional b1 nif ⟨nif, nombre, telefono, direccion, none, none, none⟩
          recurso fecha hora

inductive ErrorDevolver where
  | noRegistrado
  | sinRecursos
  | seleccionInvalida
deriving DecidableEq

/-- Free the book copy matching an id_recurso snapshot (lines 943-945,
968-970: the snapshot is rebuilt into an EjemplarLibro and looked up by
equality; because the snapshot aliases the live copy dict, the lookup
matches the copy in its current busy state). -/
def liberarEjemplarLibro (b : Biblioteca) (l : Libro) (nro : Nat) (est : String) :
    Biblioteca :=
  let ejs := (dlookup l b.libros).getD []
  { b with libros := dinsert l (marcarEjemplar ejs ⟨l, nro, est⟩ "") b.libros }

/-- Lines 952 and 980: biblioteca.peliculas[pelicula][1].estado_prestamo
is assigned. The copy at index 1 is the loan copy in the canonical
layout. When index 1 held a consultation copy, Python would create a
stray estado_prestamo attribute without touching estado_local, and with
fewer than two copies it would raise IndexError; neither alters the
modelled fields, so both are identity here. -/
def ponPrestamoEnIndice1 (ejs : List EjemplarPelicula) (v : Bool) :
    List EjemplarPelicula :=
  match ejs with
  | a :: .prestamo p _ :: rest => a :: .prestamo p v :: rest
  | otros => otros

/-- Line 1928: biblioteca.peliculas[pelicula][0].estado_local = False,
same aliasing caveats as ponPrestamoEnIndice1. -/
def ponLocalEnIndice0 (ejs : List EjemplarPelicula) (v : Bool) :
    List EjemplarPelicula :=
  match ejs with
  | .biblioteca p _ :: rest => .biblioteca p v :: rest
  | otros => otros

/-- Lines 1920-1924: scan the magazine set for the id stored in the
consultation record and clear its flag. -/
def liberarRevistaPorId : List Revista → String → List Revista
  | [], _ => []
  | r :: rest, rid =>
    if r.id = rid then { r with estado_consulta := false } :: rest
    else r :: liberarRevistaPorId rest rid

/-- Remove the first occurrence of a loan id, list.remove of line 947. -/
def quitarPrimero (x : String) : List String → List String
  | [] => []
  | y :: rest => if y = x then rest else y :: quitarPrimero x rest

/-- The single-holding return of mostrar_menu_devolver for a member,
lines 931-988. Index idx selects among the open loans followed by the
open consultation. For a loan: the book copy is freed (or the movie loan
copy at index 1), fecha_devuelto is stamped and the id removed. For the
consultation: a book copy is freed; for a magazine the source compares
revista.id against the whole stored dict, which never matches, so no
magazine is freed; for a movie the source clears estado_prestamo of the
copy at index 1 instead of estado_local of the consultation copy. -/
def devolver_uno (b : Biblioteca) (nif : String) (idx : Nat) (hoy : Nat)
    (hora : String) : Except ErrorDevolver Biblioteca :=
  match dlookup nif b.socios with
  | none => .error .noRegistrado
  | some socio =>
    if socio.ejemplares_prestados = [] ∧ socio.recurso_en_consulta = none then
      .error .sinRecursos
    else if idx < socio.ejemplares_prestados.length then
      match socio.ejemplares_prestados[idx]? with
      | none => .error .seleccionInvalida
      | some pid =>
        match dlookup pid b.prestamos with
        | none => .error .noRegistrado
        | some pr =>
          let b1 :=
            match pr.id_recurso with
            | .ejemplarLibro l nro est => liberarEjemplarLibro b l nro est
            | .pelicula p =>
              let ejs := (dlookup p b.peliculas).getD []
              { b with peliculas := dinsert p (ponPrestamoEnIndice1 ejs false) b.peliculas }
            | .revista _ => b
          let pr2 := { pr with fecha_devuelto := some hoy }
          let b2 := { b1 with prestamos := dinsert pid pr2 b1.prestamos }
          let resto := quitarPrimero pid socio.ejemplares_prestados
          let socio2 := { socio with ejemplares_prestados := resto }
          .ok { b2 with socios := dinsert nif socio2 b2.socios }
    else
      match socio.recurso_en_consulta with
      | none => .error .seleccionInvalida
      | some cid =>
        if idx = socio.ejemplares_prestados.length then
          match dlookup cid b.consultas with
          | none => .error .noRegistrado
          | some c =>
            let b1 :=
              match c.id_recurso with
              | .ejemplarLibro l nro est => liberarEjemplarLibro b l nro est
              | .revista _ => b
              | .pelicula p =>
                let ejs := (dlookup p b.peliculas).getD []
                { b with peliculas := dinsert p (ponPrestamoEnIndice1 ejs false) b.peliculas }
            let c2 := { c with hora_devolucion := some hora }
            let b2 := { b1 with consultas := dinsert cid c2 b1.consultas }
            let socio2 := { socio with recurso_en_consulta := none }
            .ok { b2 with socios := dinsert nif socio2 b2.socios }
        else .error .seleccionInvalida

/-- Stamp fecha_devuelto of one loan, line 904. -/
def stampDevuelto (b : Biblioteca) (pid : String) (hoy : Nat) : Biblioteca :=
  match dlookup pid b.prestamos with
  | some pr =>
    { b with prestamos := dinsert pid { pr with fecha_devuelto := some hoy } b.prestamos }
  | none => b

/-- The (T)odos bulk return for a member, lines 902-926. Every loan gets
fecha_devuelto stamped, but the isinstance(prestamo, EjemplarLibro) and
isinstance(prestamo, PeliculaPrestamo) tests are applied to the loan-id
string, so neither branch ever runs and no copy is freed; the same
applies to the isinstance tests on the consultation id, so no
consultation unit is freed either. The member's lists are cleared. -/
def devolver_todos (b : Biblioteca) (nif : String) (hoy : Nat) (hora : String) :
    Except ErrorDevolver Biblioteca :=
  match dlookup nif b.socios with
  | none => .error .noRegistrado
  | some socio =>
    if socio.ejemplares_prestados = [] ∧ socio.recurso_en_consulta = none then
      .error .sinRecursos
    else
      let b1 := socio.ejemplares_prestados.foldl (fun acc pid => stampDevuelto acc pid hoy) b
      let b2 :=
        match socio.recurso_en_consulta with
        | some cid =>
          match dlookup cid b1.consultas with
          | some c =>
            let c2 := { c with hora_devolucion := some hora }
            { b1 with consultas := dinsert cid c2 b1.consultas }
          | none => b1
        | none => b1
      let socio2 := { socio with ejemplares_prestados := [], recurso_en_consulta := none }
      .ok { b2 with socios := dinsert nif socio2 b2.socios }

/-- eliminar_consulta, lines 1910-1937, the return path for a casual
user: here the magazine branch compares ids correctly and the movie
branch clears estado_local of the copy at index 0. -/
def eliminar_consulta (b : Biblioteca) (nif : String) (oc : Ocasional)
    (hora : String) : Biblioteca :=
  match oc.recurso_en_consulta with
  | none => b
  | some cid =>
    match dlookup cid b.consultas with
    | none => b
    | some c =>
      let b1 :=
        match c.id_recurso with
        | .ejemplarLibro l nro est => liberarEjemplarLibro b l nro est
        | .revista r => { b with revistas := liberarRevistaPorId b.revistas r.id }
        | .pelicula p =>
          let ejs := (dlookup p b.peliculas).getD []
          { b with peliculas := dinsert p (ponLocalEnIndice0 ejs false) b.peliculas }
      let c2 := { c with hora_devolucion := some hora }
      let b2 := { b1 with consultas := dinsert cid c2 b1.consultas }
      let oc2 := { oc with recurso_en_consulta := none,
                           fecha_solicitud_consulta := none,
                           hora_solicitud_consulta := none }
      { b2 with ocasionales := dinsert nif oc2 b2.ocasionales }

inductive ErrorRenovar where
  | noRegistrado
  | seleccionInvalida
  | renewalLimitReached
  | loanOverdue
  | renewalWindowNotOpen
deriving DecidableEq

/-- mostrar_menu_renovar, lines 1004-1088. Guards in source order: at
most 3 renewals, not overdue, and the 3-day window unless the operator
overrides it (saltar). Books extend the stored due date by 7 days;
every other record shape (the movies) gets due = today + 2 days. The
source compares ISO date strings, which agrees with the day-number
order used here; the window comparison is taken at day granularity. -/
def renovar (b : Biblioteca) (nif : String) (idx : Nat) (hoy : Nat) (saltar : Bool) :
    Except ErrorRenovar Biblioteca :=
  match dlookup nif b.socios with
  | none => .error .noRegistrado
  | some socio =>
    match socio.ejemplares_prestados[idx]? with
    | none => .error .seleccionInvalida
    | some pid =>
      match dlookup pid b.prestamos with
      | none => .error .noRegistrado
      | some pr =>
        if pr.renovacion ≥ 3 then .error .renewalLimitReached
        else if pr.fecha_max_devolucion < hoy then .error .loanOverdue
        else if pr.fecha_max_devolucion ≥ hoy + 3 ∧ saltar = false then
          .error .renewalWindowNotOpen
        else
          match pr.id_recurso with
          | .ejemplarLibro _ _ _ =>
            let pr2 := { pr with
              fecha_max_devolucion := pr.fecha_max_devolucion + 7,
              renovacion := pr.renovacion + 1 }
            .ok { b with prestamos := dinsert pid pr2 b.prestamos }
          | _ =>
            let pr2 := { pr with
              fecha_max_devolucion := hoy + 2,
              renovacion := pr.renovacion + 1 }
            .ok { b with prestamos := dinsert pid pr2 b.prestamos }

/-! Persistence. -/

/-- The JSON snapshot written by guardar_datos, lines 204-223: all seven
collections plus the six counters. -/
structure Datos where
  libros : List (Libro × List EjemplarLibro)
  revistas : List Revista
  peliculas : List (Pelicula × List EjemplarPelicula)
  prestamos : List (String × Prestamo)
  consultas : List (String × Consulta)
  socios : List (String × Socio)
  ocasionales : List (String × Ocasional)
  nro_prestamo : Nat
  nro_id_libro : Nat
  nro_id_revista : Nat
  nro_id_pelicula : Nat
  nro_socio : Nat
  nro_consulta : Nat
deriving DecidableEq

/-- guardar_datos, lines 204-223. -/
def guardar_datos (b : Biblioteca) : Datos :=
  ⟨b.libros, b.revistas, b.peliculas, b.prestamos, b.consultas, b.socios,
   b.ocasionales, b.nro_prestamo, b.nro_id_libro, b.nro_id_revista,
   b.nro_id_pelicula, b.nro_socio, b.nro_consulta⟩

/-- cargar_datos, lines 225-259, on a parseable snapshot: every
collection and every counter is rebuilt from the file. -/
def cargar_datos (d : Datos) : Biblioteca :=
  ⟨d.libros, d.revistas, d.peliculas, d.prestamos, d.consultas, d.socios,
   d.ocasionales, d.nro_prestamo, d.nro_id_libro, d.nro_id_revista,
   d.nro_id_pelicula, d.nro_socio, d.nro_consulta⟩

/-! Th reachable-state relation: one constructor per state-mutating
operation of the program (the walk-in registration inside the
consultation flow always raises before mutating, so it contributes no
step), plus the save / load round trip. -/

inductive Paso : Biblioteca → Biblioteca → Prop where
  | altaLibro (b : Biblioteca) (t a e d : String) (n : Nat) :
      Paso b (configurar_libro b t a e d n)
  | altaRevista (b : Biblioteca) (no f e d : String) :
      Paso b (configurar_revista b no f e d)
  | altaPelicula (b : Biblioteca) (t f : String) (ap asec : List String) (d : String)
      (n : Nat) : Paso b (configurar_pelicula b t f ap asec d n)
  | altaSocio (b : Biblioteca) (nif no te di : String) :
      Paso b (alta_socio b nif no te di)
  | bajaSocio (b b2 : Biblioteca) (nif : String) :
      eliminar_socio b nif = .ok b2 → Paso b b2
  | prestamo (b b2 : Biblioteca) (nif : String) (r : Recurso) (dia : Nat)
      (hora : String) : abrir_prestamo b nif r dia hora = .ok b2 → Paso b b2
  | consulta (b b2 : Biblioteca) (nif no te di : String) (r : Recurso) (f : Nat)
      (h : String) : abrir_consulta b nif no te di r f h = .ok b2 → Paso b b2
  | devolverUno (b b2 : Biblioteca) (nif : String) (idx hoy : Nat) (hora : String) :
      devolver_uno b nif idx hoy hora = .ok b2 → Paso b b2
  | devolverTodos (b b2 : Biblioteca) (nif : String) (hoy : Nat) (hora : String) :
      devolver_todos b nif hoy hora = .ok b2 → Paso b b2
  | devolverOcasional (b : Biblioteca) (nif : String) (oc : Ocasional) (hora : String) :
      dlookup nif b.ocasionales = some oc → Paso b (eliminar_consulta b nif oc hora)
  | renovacion (b b2 : Biblioteca) (nif : String) (idx hoy : Nat) (saltar : Bool) :
      renovar b nif idx hoy saltar = .ok b2 → Paso b b2
  | quitarEjemplaresTodos (b b2 : Biblioteca) (l : Libro) :
      eliminar_ejemplares_libro_todos b l = .ok b2 → Paso b b2
  | quitarEjemplaresSel (b : Biblioteca) (l : Libro) (sel : List Nat) :
      Paso b (eliminar_ejemplares_libro_sel b l sel)
  | bajaLibro (b : Biblioteca) (l : Libro) : Paso b (eliminar_libro b l)
  | bajaRevista (b b2 : Biblioteca) (r : Revista) :
      eliminar_revista b r = .ok b2 → Paso b b2
  | quitarEjemplarPelicula (b : Biblioteca) (p : Pelicula) (s : SelPelicula) :
      Paso b (eliminar_ejemplar_pelicula b p s)
  | bajaPelicula (b : Biblioteca) (p : Pelicula) : Paso b (eliminar_pelicula b p)
  | guardarCargar (b : Biblioteca) : Paso b (cargar_datos (guardar_datos b))

/-- States reachable from the empty library by any operation sequence. -/
def Alcanzable (b : Biblioteca) : Prop :=
  Relation.ReflTransGen Paso Biblioteca.init b

/-- Spec section 8: every member has at most 3 open loans. -/
def cuotaOk (b : Biblioteca) : Prop :=
  ∀ e ∈ b.socios, (Prod.snd e).ejemplares_prestados.length ≤ 3

/-- Spec section 8: no loan is renewed more than 3 times. -/
def renovacionOk (b : Biblioteca) : Prop :=
  ∀ e ∈ b.prestamos, (Prod.snd e).renovacion ≤ 3

/-! Per-operation preservation of the member and loan ledgers. -/

theorem generar_id_recurso_nucleo (b : Biblioteca) (t : String) :
    (generar_id_recurso b t).1.socios = b.socios ∧
    (generar_id_recurso b t).1.prestamos = b.prestamos := by
  unfold generar_id_recurso
  split_ifs <;> exact ⟨rfl, rfl⟩

theorem configurar_libro_nucleo (b : Biblioteca) (t a e d : String) (n : Nat) :
    (configurar_libro b t a e d n).socios = b.socios ∧
    (configurar_libro b t a e d n).prestamos = b.prestamos := by
  unfold configurar_libro
  split
  · exact ⟨rfl, rfl⟩
  · exact generar_id_recurso_nucleo b "libro"

theorem configurar_revista_nucleo (b : Biblioteca) (no f e d : String) :
    (configurar_revista b no f e d).socios = b.socios ∧
    (configurar_revista b no f e d).prestamos = b.prestamos := by
  unfold configurar_revista
  split
  · exact ⟨rfl, rfl⟩
  · exact generar_id_recurso_nucleo b "revista"

theorem configurar_pelicula_nucleo (b : Biblioteca) (t f : String)
    (ap asec : List String) (d : String) (n : Nat) :
    (configurar_pelicula b t f ap asec d n).socios = b.socios ∧
    (configurar_pelicula b t f ap asec d n).prestamos = b.prestamos := by
  unfold configurar_pelicula
  split
  · dsimp only
    split
    · exact ⟨rfl, rfl⟩
    · split
      · split <;> exact ⟨rfl, rfl⟩
      · exact ⟨rfl, rfl⟩
  · dsimp only
    split <;> exact generar_id_recurso_nucleo b "pelicula"

theorem eliminar_ejemplares_libro_todos_nucleo {b b2 : Biblioteca} {l : Libro}
    (h : eliminar_ejemplares_libro_todos b l = .ok b2) :
    b2.socios = b.socios ∧ b2.prestamos = b.prestamos := by
  unfold eliminar_ejemplares_libro_todos at h
  split at h
  · simp at h
  · split at h
    · simp at h
    · simp only [Except.ok.injEq] at h
      subst h
      exact ⟨rfl, rfl⟩

theorem eliminar_ejemplares_libro_sel_nucleo (b : Biblioteca) (l : Libro)
    (sel : List Nat) :
    (eliminar_ejemplares_libro_sel b l sel).socios = b.socios ∧
    (eliminar_ejemplares_libro_sel b l sel).prestamos = b.prestamos := by
  unfold eliminar_ejemplares_libro_sel
  split
  · exact ⟨rfl, rfl⟩
  · split <;> exact ⟨rfl, rfl⟩

theorem eliminar_libro_nucleo (b : Biblioteca) (l : Libro) :
    (eliminar_libro b l).socios = b.socios ∧
    (eliminar_libro b l).prestamos = b.prestamos := by
  unfold eliminar_libro
  split <;> exact ⟨rfl, rfl⟩

theorem eliminar_revista_nucleo {b b2 : Biblioteca} {r : Revista}
    (h : eliminar_revista b r = .ok b2) :
    b2.socios = b.socios ∧ b2.prestamos = b.prestamos := by
  unfold eliminar_revista at h
  split at h
  · simp at h
  · simp only [Except.ok.injEq] at h
    subst h
    exact ⟨rfl, rfl⟩

theorem eliminar_ejemplar_pelicula_nucleo (b : Biblioteca) (p : Pelicula)
    (s : SelPelicula) :
    (eliminar_ejemplar_pelicula b p s).socios = b.socios ∧
    (eliminar_ejemplar_pelicula b p s).prestamos = b.prestamos := by
  unfold eliminar_ejemplar_pelicula
  split
  · exact ⟨rfl, rfl⟩
  · split <;> exact ⟨rfl, rfl⟩

theorem eliminar_pelicula_nucleo (b : Biblioteca) (p : Pelicula) :
    (eliminar_pelicula b p).socios = b.socios ∧
    (eliminar_pelicula b p).prestamos = b.prestamos := by
  unfold eliminar_pelicula
  split <;> exact ⟨rfl, rfl⟩

theorem cargar_guardar_id (b : Biblioteca) : cargar_datos (guardar_datos b) = b :=
  rfl

/-! Shape lemmas for the lending operations. -/

theorem cuotaOk_eq {b b2 : Biblioteca} (hs : b2.socios = b.socios) (inv : cuotaOk b) :
    cuotaOk b2 := by
  intro e he
  rw [hs] at he
  exact inv e he

theorem renovacionOk_eq {b b2 : Biblioteca} (hp : b2.prestamos = b.prestamos)
    (inv : renovacionOk b) : renovacionOk b2 := by
  intro e he
  rw [hp] at he
  exact inv e he

theorem finalizarPrestamo_ok {b : Biblioteca} {socio : Socio} {nif : String}
    {ref : RecursoRef} {dia : Nat} {hora : String} {b2 : Biblioteca}
    (h : finalizarPrestamo b socio nif ref dia hora = .ok b2) :
    b2.socios = dinsert nif
      { socio with ejemplares_prestados :=
          socio.ejemplares_prestados ++ ["PREST-" ++ pad10 (b.nro_prestamo + 1)] }
      b.socios ∧
    b2.prestamos = dinsert ("PREST-" ++ pad10 (b.nro_prestamo + 1))
      ⟨socio.nif, "PREST-" ++ pad10 (b.nro_prestamo + 1), ref, dia, hora,
        socio.nro_socio, dia + 7, none, 0⟩ b.prestamos := by
  unfold finalizarPrestamo generar_nro_prestamo at h
  simp only [Except.ok.injEq] at h
  subst h
  exact ⟨rfl, rfl⟩

theorem abrir_prestamo_ok {b : Biblioteca} {nif : String} {r : Recurso} {dia : Nat}
    {hora : String} {b2 : Biblioteca} (h : abrir_prestamo b nif r dia hora = .ok b2) :
    ∃ socio b1 ref, dlookup nif b.socios = some socio ∧
      socio.ejemplares_prestados.length < 3 ∧
      b1.socios = b.socios ∧ b1.prestamos = b.prestamos ∧
      b1.nro_prestamo = b.nro_prestamo ∧
      finalizarPrestamo b1 socio nif ref dia hora = .ok b2 := by
  unfold abrir_prestamo at h
  split at h
  · simp at h
  rename_i socio heq
  split at h
  · simp at h
  rename_i hlen
  split at h
  · simp at h
  rename_i u hu
  split at h
  · rename_i l e
    split at h
    · simp at h
    dsimp only at h
    refine ⟨socio, _, _, heq, Nat.lt_of_not_le hlen, ?_, ?_, ?_, h⟩ <;> rfl
  · dsimp only at h
    refine ⟨socio, _, _, heq, Nat.lt_of_not_le hlen, ?_, ?_, ?_, h⟩ <;> rfl
  · simp at h

theorem cuotaOk_abrir_prestamo {b b2 : Biblioteca} {nif : String} {r : Recurso}
    {dia : Nat} {hora : String} (h : abrir_prestamo b nif r dia hora = .ok b2)
    (inv : cuotaOk b) : cuotaOk b2 := by
  obtain ⟨socio, b1, ref, heq, hlen, hsoc, hpre, hnro, hfin⟩ := abrir_prestamo_ok h
  obtain ⟨h1, _⟩ := finalizarPrestamo_ok hfin
  intro e he
  rw [h1, hsoc] at he
  rcases mem_dinsert he with rfl | he
  · simp only [List.length_append, List.length_cons, List.length_nil]
    omega
  · exact inv e he

theorem renovacionOk_abrir_prestamo {b b2 : Biblioteca} {nif : String} {r : Recurso}
    {dia : Nat} {hora : String} (h : abrir_prestamo b nif r dia hora = .ok b2)
    (inv : renovacionOk b) : renovacionOk b2 := by
  obtain ⟨socio, b1, ref, heq, hlen, hsoc, hpre, hnro, hfin⟩ := abrir_prestamo_ok h
  obtain ⟨_, h2⟩ := finalizarPrestamo_ok hfin
  intro e he
  rw [h2, hpre] at he
  rcases mem_dinsert he with rfl | he
  · exact Nat.zero_le 3
  · exact inv e he

theorem marcarConsulta_nucleo (b : Biblioteca) (r : Recurso) (u : Unidad) :
    (marcarConsulta b r u).1.socios = b.socios ∧
    (marcarConsulta b r u).1.prestamos = b.prestamos := by
  unfold marcarConsulta
  rcases r with l | rv | p <;> rcases u with e | rv2 | ec <;> exact ⟨rfl, rfl⟩

/-- The member record after opening a consultation. -/
def socioConsultando (socio : Socio) (cid : String) (f : Nat) (hr : String) : Socio :=
  { socio with recurso_en_consulta := some cid,
               fecha_solicitud_consulta := some f,
               hora_solicitud_consulta := some hr }

theorem registrar_consulta_socio_ok {b : Biblioteca} {nif : String} {socio : Socio}
    {r : Recurso} {f : Nat} {hr : String} {b2 : Biblioteca}
    (h : registrar_consulta_socio b nif socio r f hr = .ok b2) :
    ∃ cid, b2.socios = dinsert nif (socioConsultando socio cid f hr) b.socios ∧
      b2.prestamos = b.prestamos := by
  unfold registrar_consulta_socio generar_nro_consulta at h
  split at h
  · simp at h
  rename_i u hu
  simp only [Except.ok.injEq] at h
  subst h
  refine ⟨"CON-" ++ pad10 ((marcarConsulta b r u).1.nro_consulta + 1), ?_, ?_⟩
  · have hsoc := (marcarConsulta_nucleo b r u).1
    show dinsert nif
      (socioConsultando socio ("CON-" ++ pad10 ((marcarConsulta b r u).1.nro_consulta + 1)) f hr)
      (marcarConsulta b r u).1.socios = _
    rw [hsoc]
  · exact (marcarConsulta_nucleo b r u).2

theorem registrar_consulta_ocasional_nucleo {b : Biblioteca} {nif : String}
    {oc : Ocasional} {r : Recurso} {f : Nat} {hr : String} {b2 : Biblioteca}
    (h : registrar_consulta_ocasional b nif oc r f hr = .ok b2) :
    b2.socios = b.socios ∧ b2.prestamos = b.prestamos := by
  unfold registrar_consulta_ocasional generar_nro_consulta at h
  split at h
  · simp at h
  rename_i u hu
  simp only [Except.ok.injEq] at h
  subst h
  exact ⟨(marcarConsulta_nucleo b r u).1, (marcarConsulta_nucleo b r u).2⟩

theorem cuotaOk_abrir_consulta {b b2 : Biblioteca} {nif no te di : String}
    {r : Recurso} {f : Nat} {hr : String}
    (h : abrir_consulta b nif no te di r f hr = .ok b2) (inv : cuotaOk b) :
    cuotaOk b2 := by
  unfold abrir_consulta at h
  split at h
  · rename_i socio heq
    split at h
    · simp at h
    obtain ⟨cid, hs2, _⟩ := registrar_consulta_socio_ok h
    intro e he
    rw [hs2] at he
    rcases mem_dinsert he with rfl | he
    · have hb := inv _ (dlookup_mem heq)
      simpa using hb
    · exact inv e he
  split at h
  · rename_i oc heq2
    split at h
    · simp at h
    exact cuotaOk_eq (registrar_consulta_ocasional_nucleo h).1 inv
  · simp [agregar_ocasional] at h

theorem renovacionOk_abrir_consulta {b b2 : Biblioteca} {nif no te di : String}
    {r : Recurso} {f : Nat} {hr : String}
    (h : abrir_consulta b nif no te di r f hr = .ok b2) (inv : renovacionOk b) :
    renovacionOk b2 := by
  unfold abrir_consulta at h
  split at h
  · rename_i socio heq
    split at h
    · simp at h
    exact renovacionOk_eq (registrar_consulta_socio_ok h).choose_spec.2 inv
  split at h
  · rename_i oc heq2
    split at h
    · simp at h
    exact renovacionOk_eq (registrar_consulta_ocasional_nucleo h).2 inv
  · simp [agregar_ocasional] at h

theorem quitarPrimero_length_le (x : String) (l : List String) :
    (quitarPrimero x l).length ≤ l.length := by
  induction l with
  | nil => simp [quitarPrimero]
  | cons y rest ih =>
    by_cases hx : y = x
    · simp [quitarPrimero, hx, Nat.le_succ]
    · simp only [quitarPrimero, hx, if_false, List.length_cons]
      omega

/-- The member record after a single loan return. -/
def socioSinPrestamo (socio : Socio) (pid : String) : Socio :=
  { socio with ejemplares_prestados := quitarPrimero pid socio.ejemplares_prestados }

/-- The member record after returning the open consultation. -/
def socioSinConsulta (socio : Socio) : Socio :=
  { socio with recurso_en_consulta := none }

theorem devolver_uno_ok {b b2 : Biblioteca} {nif : String} {idx hoy : Nat}
    {hora : String} (h : devolver_uno b nif idx hoy hora = .ok b2) :
    ∃ socio, dlookup nif b.socios = some socio ∧
      ((∃ pid pr, dlookup pid b.prestamos = some pr ∧
          b2.socios = dinsert nif (socioSinPrestamo socio pid) b.socios ∧
          b2.prestamos = dinsert pid { pr with fecha_devuelto := some hoy } b.prestamos) ∨
        (b2.socios = dinsert nif (socioSinConsulta socio) b.socios ∧
          b2.prestamos = b.prestamos)) := by
  unfold devolver_uno at h
  split at h
  · simp at h
  rename_i socio heq
  split at h
  · simp at h
  split at h
  · split at h
    · simp at h
    rename_i pid hpid
    split at h
    · simp at h
    rename_i pr hpr
    simp only [Except.ok.injEq] at h
    subst h
    refine ⟨socio, heq, Or.inl ⟨pid, pr, hpr, ?_, ?_⟩⟩
    · rcases hid : pr.id_recurso with ⟨l, nro, est⟩ | rv | p <;>
        simp [hid, liberarEjemplarLibro, socioSinPrestamo]
    · rcases hid : pr.id_recurso with ⟨l, nro, est⟩ | rv | p <;>
        simp [hid, liberarEjemplarLibro]
  · split at h
    · simp at h
    rename_i cid hcid
    split at h
    · split at h
      · simp at h
      rename_i c hc
      simp only [Except.ok.injEq] at h
      subst h
      refine ⟨socio, heq, Or.inr ⟨?_, ?_⟩⟩
      · rcases hid : c.id_recurso with ⟨l, nro, est⟩ | rv | p <;>
          simp [hid, liberarEjemplarLibro, socioSinConsulta]
      · rcases hid : c.id_recurso with ⟨l, nro, est⟩ | rv | p <;>
          simp [hid, liberarEjemplarLibro]
    · simp at h

theorem cuotaOk_devolver_uno {b b2 : Biblioteca} {nif : String} {idx hoy : Nat}
    {hora : String} (h : devolver_uno b nif idx hoy hora = .ok b2)
    (inv : cuotaOk b) : cuotaOk b2 := by
  obtain ⟨socio, heq, hcase⟩ := devolver_uno_ok h
  have hbound := inv _ (dlookup_mem heq)
  rcases hcase with ⟨pid, pr, hpr, hs, hp⟩ | ⟨hs, hp⟩ <;>
    intro e he <;> rw [hs] at he <;> rcases mem_dinsert he with rfl | he
  · exact le_trans (quitarPrimero_length_le _ _) hbound
  · exact inv e he
  · exact hbound
  · exact inv e he

theorem renovacionOk_devolver_uno {b b2 : Biblioteca} {nif : String} {idx hoy : Nat}
    {hora : String} (h : devolver_uno b nif idx hoy hora = .ok b2)
    (inv : renovacionOk b) : renovacionOk b2 := by
  obtain ⟨socio, heq, hcase⟩ := devolver_uno_ok h
  rcases hcase with ⟨pid, pr, hpr, hs, hp⟩ | ⟨hs, hp⟩
  · intro e he
    rw [hp] at he
    rcases mem_dinsert he with rfl | he
    · have hb := inv _ (dlookup_mem hpr)
      exact hb
    · exact inv e he
  · exact renovacionOk_eq hp inv

theorem stampDevuelto_socios (b : Biblioteca) (pid : String) (hoy : Nat) :
    (stampDevuelto b pid hoy).socios = b.socios := by
  unfold stampDevuelto
  split <;> rfl

theorem stampDevuelto_renovacion {b : Biblioteca} (pid : String) (hoy : Nat)
    (inv : renovacionOk b) : renovacionOk (stampDevuelto b pid hoy) := by
  unfold stampDevuelto
  split
  · rename_i pr hpr
    intro e he
    rcases mem_dinsert he with rfl | he
    · have hb := inv _ (dlookup_mem hpr)
      exact hb
    · exact inv e he
  · exact inv

theorem foldl_stamp_socios (ids : List String) (b : Biblioteca) (hoy : Nat) :
    (ids.foldl (fun acc pid => stampDevuelto acc pid hoy) b).socios = b.socios := by
  induction ids generalizing b with
  | nil => rfl
  | cons x rest ih => rw [List.foldl_cons, ih, stampDevuelto_socios]

theorem foldl_stamp_renovacion (ids : List String) {b : Biblioteca} (hoy : Nat)
    (inv : renovacionOk b) :
    renovacionOk (ids.foldl (fun acc pid => stampDevuelto acc pid hoy) b) := by
  induction ids generalizing b with
  | nil => exact inv
  | cons x rest ih => exact ih (stampDevuelto_renovacion x hoy inv)

/-- The member record after the bulk return: both lists cleared. -/
def socioDevueltoTodo (socio : Socio) : Socio :=
  { socio with ejemplares_prestados := [], recurso_en_consulta := none }

theorem devolver_todos_ok {b b2 : Biblioteca} {nif : String} {hoy : Nat}
    {hora : String} (h : devolver_todos b nif hoy hora = .ok b2) :
    ∃ socio, dlookup nif b.socios = some socio ∧
      b2.socios = dinsert nif (socioDevueltoTodo socio) b.socios ∧
      b2.prestamos = (socio.ejemplares_prestados.foldl
        (fun acc pid => stampDevuelto acc pid hoy) b).prestamos := by
  unfold devolver_todos at h
  split at h
  · simp at h
  rename_i socio heq
  split at h
  · simp at h
  dsimp only at h
  split at h
  · rename_i cid hcid
    split at h
    · rename_i c hc
      simp only [Except.ok.injEq] at h
      subst h
      refine ⟨socio, heq, ?_, rfl⟩
      show dinsert nif (socioDevueltoTodo socio)
        (socio.ejemplares_prestados.foldl (fun acc pid => stampDevuelto acc pid hoy) b).socios = _
      rw [foldl_stamp_socios]
    · simp only [Except.ok.injEq] at h
      subst h
      refine ⟨socio, heq, ?_, rfl⟩
      show dinsert nif (socioDevueltoTodo socio)
        (socio.ejemplares_prestados.foldl (fun acc pid => stampDevuelto acc pid hoy) b).socios = _
      rw [foldl_stamp_socios]
  · simp only [Except.ok.injEq] at h
    subst h
    refine ⟨socio, heq, ?_, rfl⟩
    show dinsert nif (socioDevueltoTodo socio)
      (socio.ejemplares_prestados.foldl (fun acc pid => stampDevuelto acc pid hoy) b).socios = _
    rw [foldl_stamp_socios]

theorem cuotaOk_devolver_todos {b b2 : Biblioteca} {nif : String} {hoy : Nat}
    {hora : String} (h : devolver_todos b nif hoy hora = .ok b2)
    (inv : cuotaOk b) : cuotaOk b2 := by
  obtain ⟨socio, heq, hs, hp⟩ := devolver_todos_ok h
  intro e he
  rw [hs] at he
  rcases mem_dinsert he with rfl | he
  · exact Nat.zero_le 3
  · exact inv e he

theorem renovacionOk_devolver_todos {b b2 : Biblioteca} {nif : String} {hoy : Nat}
    {hora : String} (h : devolver_todos b nif hoy hora = .ok b2)
    (inv : renovacionOk b) : renovacionOk b2 := by
  obtain ⟨socio, heq, hs, hp⟩ := devolver_todos_ok h
  exact renovacionOk_eq hp (foldl_stamp_renovacion _ hoy inv)

theorem eliminar_consulta_nucleo (b : Biblioteca) (nif : String) (oc : Ocasional)
    (hora : String) :
    (eliminar_consulta b nif oc hora).socios = b.socios ∧
    (eliminar_consulta b nif oc hora).prestamos = b.prestamos := by
  unfold eliminar_consulta
  split
  · exact ⟨rfl, rfl⟩
  split
  · exact ⟨rfl, rfl⟩
  rename_i cid hcid c hc
  rcases hid : c.id_recurso with ⟨l, nro, est⟩ | rv | p <;>
    simp [hid, liberarEjemplarLibro]

/-- The renewed loan record: books extend the stored due date by 7 days,
every other resource shape is reset to today + 2 days. -/
def prestamoRenovado (pr : Prestamo) (hoy : Nat) : Prestamo :=
  match pr.id_recurso with
  | .ejemplarLibro _ _ _ =>
    { pr with fecha_max_devolucion := pr.fecha_max_devolucion + 7,
              renovacion := pr.renovacion + 1 }
  | _ =>
    { pr with fecha_max_devolucion := hoy + 2,
              renovacion := pr.renovacion + 1 }

theorem renovar_ok {b b2 : Biblioteca} {nif : String} {idx hoy : Nat} {saltar : Bool}
    (h : renovar b nif idx hoy saltar = .ok b2) :
    ∃ pid pr, dlookup pid b.prestamos = some pr ∧ pr.renovacion < 3 ∧
      b2 = { b with prestamos := dinsert pid (prestamoRenovado pr hoy) b.prestamos } := by
  unfold renovar at h
  split at h
  · simp at h
  rename_i socio heq
  split at h
  · simp at h
  rename_i pid hpid
  split at h
  · simp at h
  rename_i pr hpr
  split at h
  · simp at h
  rename_i h3
  split at h
  · simp at h
  rename_i h4
  split at h
  · simp at h
  rename_i h5
  refine ⟨pid, pr, hpr, Nat.lt_of_not_le h3, ?_⟩
  rcases hid : pr.id_recurso with ⟨l, nro, est⟩ | rv | p <;> rw [hid] at h <;>
    simp only [Except.ok.injEq] at h <;> subst h <;>
    simp [prestamoRenovado, hid]

theorem renovacionOk_renovar {b b2 : Biblioteca} {nif : String} {idx hoy : Nat}
    {saltar : Bool} (h : renovar b nif idx hoy saltar = .ok b2)
    (inv : renovacionOk b) : renovacionOk b2 := by
  obtain ⟨pid, pr, hpr, hlt, hb2⟩ := renovar_ok h
  subst hb2
  intro e he
  rcases mem_dinsert he with rfl | he
  · have : (prestamoRenovado pr hoy).renovacion = pr.renovacion + 1 := by
      unfold prestamoRenovado
      split <;> rfl
    show (prestamoRenovado pr hoy).renovacion ≤ 3
    omega
  · exact inv e he

theorem cuotaOk_alta_socio (b : Biblioteca) (nif no te di : String)
    (inv : cuotaOk b) : cuotaOk (alta_socio b nif no te di) := by
  unfold alta_socio generar_nro_socio
  split
  · exact inv
  dsimp only
  intro e he
  rcases mem_dinsert he with rfl | he
  · exact Nat.zero_le 3
  · exact inv e he

theorem alta_socio_prestamos (b : Biblioteca) (nif no te di : String) :
    (alta_socio b nif no te di).prestamos = b.prestamos := by
  unfold alta_socio generar_nro_socio
  split <;> rfl

theorem eliminar_socio_ok {b b2 : Biblioteca} {nif : String}
    (h : eliminar_socio b nif = .ok b2) :
    b2.socios = derase nif b.socios ∧ b2.prestamos = b.prestamos := by
  unfold eliminar_socio at h
  split at h
  · simp at h
  split at h
  · simp at h
  simp only [Except.ok.injEq] at h
  subst h
  exact ⟨rfl, rfl⟩

/-! The two spec invariants hold in every reachable state. -/

theorem cuotaOk_paso {b b2 : Biblioteca} (p : Paso b b2) (inv : cuotaOk b) :
    cuotaOk b2 := by
  cases p with
  | altaLibro t a e d n => exact cuotaOk_eq (configurar_libro_nucleo b t a e d n).1 inv
  | altaRevista no f e d => exact cuotaOk_eq (configurar_revista_nucleo b no f e d).1 inv
  | altaPelicula t f ap asec d n =>
    exact cuotaOk_eq (configurar_pelicula_nucleo b t f ap asec d n).1 inv
  | altaSocio nif no te di => exact cuotaOk_alta_socio b nif no te di inv
  | bajaSocio bb nif h =>
    intro e he
    rw [(eliminar_socio_ok h).1] at he
    exact inv e (mem_derase he)
  | prestamo bb nif r dia hora h => exact cuotaOk_abrir_prestamo h inv
  | consulta bb nif no te di r f hr h => exact cuotaOk_abrir_consulta h inv
  | devolverUno bb nif idx hoy hora h => exact cuotaOk_devolver_uno h inv
  | devolverTodos bb nif hoy hora h => exact cuotaOk_devolver_todos h inv
  | devolverOcasional nif oc hora hoc =>
    exact cuotaOk_eq (eliminar_consulta_nucleo b nif oc hora).1 inv
  | renovacion bb nif idx hoy saltar h =>
    obtain ⟨pid, pr, hpr, hlt, hb2⟩ := renovar_ok h
    subst hb2
    exact inv
  | quitarEjemplaresTodos bb l h =>
    exact cuotaOk_eq (eliminar_ejemplares_libro_todos_nucleo h).1 inv
  | quitarEjemplaresSel l sel =>
    exact cuotaOk_eq (eliminar_ejemplares_libro_sel_nucleo b l sel).1 inv
  | bajaLibro l => exact cuotaOk_eq (eliminar_libro_nucleo b l).1 inv
  | bajaRevista bb r h => exact cuotaOk_eq (eliminar_revista_nucleo h).1 inv
  | quitarEjemplarPelicula p s =>
    exact cuotaOk_eq (eliminar_ejemplar_pelicula_nucleo b p s).1 inv
  | bajaPelicula p => exact cuotaOk_eq (eliminar_pelicula_nucleo b p).1 inv
  | guardarCargar => exact cuotaOk_eq (congrArg Biblioteca.socios (cargar_guardar_id b)) inv

theorem renovacionOk_paso {b b2 : Biblioteca} (p : Paso b b2) (inv : renovacionOk b) :
    renovacionOk b2 := by
  cases p with
  | altaLibro t a e d n =>
    exact renovacionOk_eq (configurar_libro_nucleo b t a e d n).2 inv
  | altaRevista no f e d =>
    exact renovacionOk_eq (configurar_revista_nucleo b no f e d).2 inv
  | altaPelicula t f ap asec d n =>
    exact renovacionOk_eq (configurar_pelicula_nucleo b t f ap asec d n).2 inv
  | altaSocio nif no te di =>
    exact renovacionOk_eq (alta_socio_prestamos b nif no te di) inv
  | bajaSocio bb nif h => exact renovacionOk_eq (eliminar_socio_ok h).2 inv
  | prestamo bb nif r dia hora h => exact renovacionOk_abrir_prestamo h inv
  | consulta bb nif no te di r f hr h => exact renovacionOk_abrir_consulta h inv
  | devolverUno bb nif idx hoy hora h => exact renovacionOk_devolver_uno h inv
  | devolverTodos bb nif hoy hora h => exact renovacionOk_devolver_todos h inv
  | devolverOcasional nif oc hora hoc =>
    exact renovacionOk_eq (eliminar_consulta_nucleo b nif oc hora).2 inv
  | renovacion bb nif idx hoy saltar h => exact renovacionOk_renovar h inv
  | quitarEjemplaresTodos bb l h =>
    exact renovacionOk_eq (eliminar_ejemplares_libro_todos_nucleo h).2 inv
  | quitarEjemplaresSel l sel =>
    exact renovacionOk_eq (eliminar_ejemplares_libro_sel_nucleo b l sel).2 inv
  | bajaLibro l => exact renovacionOk_eq (eliminar_libro_nucleo b l).2 inv
  | bajaRevista bb r h => exact renovacionOk_eq (eliminar_revista_nucleo h).2 inv
  | quitarEjemplarPelicula p s =>
    exact renovacionOk_eq (eliminar_ejemplar_pelicula_nucleo b p s).2 inv
  | bajaPelicula p => exact renovacionOk_eq (eliminar_pelicula_nucleo b p).2 inv
  | guardarCargar =>
    exact renovacionOk_eq (congrArg Biblioteca.prestamos (cargar_guardar_id b)) inv

theorem cuotaOk_alcanzable {b : Biblioteca} (h : Alcanzable b) : cuotaOk b := by
  induction h with
  | refl => intro e he; simp [Biblioteca.init] at he
  | tail _ p ih => exact cuotaOk_paso p ih

theorem renovacionOk_alcanzable {b : Biblioteca} (h : Alcanzable b) : renovacionOk b := by
  induction h with
  | refl => intro e he; simp [Biblioteca.init] at he
  | tail _ p ih => exact renovacionOk_paso p ih

deriving instance DecidableEq for Except

theorem dlookup_dinsert_self {κ α : Type} [DecidableEq κ] (k : κ) (v : α)
    (d : List (κ × α)) : dlookup k (dinsert k v d) = some v := by
  simp [dinsert, dlookup]

/-! Concrete states used by the claim theorems. -/

def libroC1 : Libro := ⟨"L0000000001", "clasico", "Asimov", "Foundation", "Gnome"⟩

def socioM : Socio :=
  ⟨"11111111H", "M", "600000000", "Calle 1", "S0000000001", [], none, none, none⟩

def socioN : Socio :=
  ⟨"22222222J", "N", "600000001", "Calle 2", "S0000000002", [], none, none, none⟩

def bC1 : Biblioteca := { Biblioteca.init with
  libros := [(libroC1, [⟨libroC1, 1, ""⟩, ⟨libroC1, 2, ""⟩])],
  socios := [("11111111H", socioM), ("22222222J", socioN)],
  nro_id_libro := 1,
  nro_socio := 2 }

/-- The state after member M borrows a copy of the two-copy book. -/
def bC1a : Biblioteca :=
  ((abrir_prestamo bC1 "11111111H" (.libro libroC1) 0 "10:00:00").toOption).getD
    Biblioteca.init

/-- C1: the claim fails on the code. With a two-copy book, member M's
OpenLoan succeeds (the loop hands out the second free copy) and one copy
with activity Free remains; yet member N's OpenLoan on the same book is
refused with NoCopyAvailable, because the loan-availability loop of
comprobar_estado_recurso never offers the last remaining free copy (the
first free copy it meets only sets a flag). This contradicts both the
spec scenario and the docstring of comprobar_estado_recurso. -/
theorem C1_segundo_prestamo_rechazado :
    (abrir_prestamo bC1 "11111111H" (.libro libroC1) 0 "10:00:00" = .ok bC1a) ∧
    (∃ e ∈ (dlookup libroC1 bC1a.libros).getD [], e.estado_accion = "") ∧
    abrir_prestamo bC1a "22222222J" (.libro libroC1) 0 "10:05:00" =
      .error .noCopyAvailable := by
  decide

/-- The state after member M bulk-returns everything. -/
def bC2a : Biblioteca :=
  ((devolver_todos bC1a "11111111H" 11 "12:00:00").toOption).getD Biblioteca.init

/-- C2: the claim fails on the code for the bulk variant. After member M
bulk-returns the book loan, the loan record is stamped returned and the
member's open-loan list is emptied, but the borrowed copy keeps activity
"Prestamo": the isinstance tests of the bulk branch are applied to the
loan-id string, so the copy is never freed. -/
theorem C2_devolver_todo_no_libera :
    (devolver_todos bC1a "11111111H" 11 "12:00:00" = .ok bC2a) ∧
    (dlookup "11111111H" bC2a.socios).map (fun s => s.ejemplares_prestados) =
      some [] ∧
    (∃ e ∈ bC2a.prestamos, (Prod.snd e).fecha_devuelto = some 11) ∧
    (∃ e ∈ (dlookup libroC1 bC2a.libros).getD [], e.estado_accion = "Prestamo") := by
  decide

/-- C3: an OpenConsultation for a national id that is neither a member
nor a registered casual user reaches the walk-in registration step,
whose agregar_ocasional call raises AttributeError (append invoked on
the ocasionales dict), so the whole operation aborts with that error and
neither a CasualUser nor a ConsultationRecord is created. -/
theorem C3_alta_ocasional_attributeError (b : Biblioteca)
    (nif nombre telefono direccion : String) (r : Recurso) (f : Nat) (hora : String)
    (hs : dlookup nif b.socios = none) (ho : dlookup nif b.ocasionales = none) :
    abrir_consulta b nif nombre telefono direccion r f hora =
      .error .attributeError := by
  unfold abrir_consulta
  rw [hs, ho]
  rfl

theorem C3_witness :
    abrir_consulta Biblioteca.init "33333333P" "Eva" "600000002" "Calle 3"
      (.libro libroC1) 0 "09:00:00" = .error .attributeError :=
  C3_alta_ocasional_attributeError Biblioteca.init "33333333P" "Eva" "600000002"
    "Calle 3" (.libro libroC1) 0 "09:00:00" rfl rfl

def socioLleno : Socio := ⟨"44444444A", "Lleno", "600000003", "Calle 4", "S0000000003",
  ["PREST-0000000001", "PREST-0000000002", "PREST-0000000003"], none, none, none⟩

def bC4 : Biblioteca := { Biblioteca.init with socios := [("44444444A", socioLleno)] }

/-- C4: in every state reachable by any operation sequence every member
holds at most 3 open loans, and an OpenLoan attempt by a member who
already has 3 open loans fails with the quota error before anything is
appended. -/
theorem C4_cuota_prestamos :
    (∀ b : Biblioteca, Alcanzable b → cuotaOk b) ∧
    (∀ (b : Biblioteca) (nif : String) (socio : Socio) (r : Recurso) (dia : Nat)
      (hora : String), dlookup nif b.socios = some socio →
      socio.ejemplares_prestados.length ≥ 3 →
      abrir_prestamo b nif r dia hora = .error .quotaExceeded) := by
  constructor
  · exact fun b h => cuotaOk_alcanzable h
  · intro b nif socio r dia hora hs hlen
    unfold abrir_prestamo
    rw [hs]
    dsimp only
    rw [if_pos hlen]

theorem C4_witness :
    cuotaOk Biblioteca.init ∧
    abrir_prestamo bC4 "44444444A" (.libro libroC1) 0 "10:00:00" =
      .error .quotaExceeded :=
  ⟨C4_cuota_prestamos.1 Biblioteca.init Relation.ReflTransGen.refl,
   C4_cuota_prestamos.2 bC4 "44444444A" socioLleno (.libro libroC1) 0 "10:00:00"
     (by decide) (by decide)⟩

def pelC5 : Pelicula := ⟨"P0000000001", "sci-fi", "Dune", ["A1"], ["B1"], "2024-03-01"⟩

def prestamoC5 : Prestamo :=
  ⟨"11111111H", "PREST-0000000001", .pelicula pelC5, 0, "10:00:00", "S0000000001",
    7, none, 0⟩

def socioMp : Socio := { socioM with ejemplares_prestados := ["PREST-0000000001"] }

def bC5 : Biblioteca := { Biblioteca.init with
  peliculas := [(pelC5, [.biblioteca pelC5 false, .prestamo pelC5 true])],
  prestamos := [("PREST-0000000001", prestamoC5)],
  socios := [("11111111H", socioMp)],
  nro_id_pelicula := 1,
  nro_prestamo := 1,
  nro_socio := 1 }

/-- Does an id_recurso snapshot reference a copy of this book? The same
test as the duplicate scan of lines 718-721. -/
def refEsLibro : RecursoRef → Libro → Bool
  | .ejemplarLibro libro _ _, l => decide (libro = l)
  | _, _ => false

/-- A member who holds an open loan on book l (an id in the open-loan
list whose record references a copy of l) makes the duplicate scan of
lines 717-724 fire. -/
theorem tieneLibro_of_holds {b : Biblioteca} {socio : Socio} {l : Libro}
    (h : ∃ pid ∈ socio.ejemplares_prestados,
      ((dlookup pid b.prestamos).map
        (fun pr => refEsLibro pr.id_recurso l)).getD false = true) :
    tieneLibroEnPrestamo b socio l = true := by
  obtain ⟨pid, hmem, hopt⟩ := h
  cases hpr : dlookup pid b.prestamos with
  | none =>
    rw [hpr] at hopt
    simp at hopt
  | some pr =>
    rw [hpr] at hopt
    simp only [Option.map_some', Option.getD_some] at hopt
    unfold tieneLibroEnPrestamo
    refine List.any_eq_true.mpr ⟨pid, hmem, ?_⟩
    dsimp only
    rw [hpr]
    dsimp only
    cases hid : pr.id_recurso with
    | ejemplarLibro libro nro est =>
      dsimp only
      rw [hid] at hopt
      simp only [refEsLibro] at hopt
      exact hopt
    | revista rv =>
      rw [hid] at hopt
      simp [refEsLibro] at hopt
    | pelicula q =>
      rw [hid] at hopt
      simp [refEsLibro] at hopt

/-- For a book, the availability check only ever yields a book copy. -/
theorem comprobar_libro_shape {b : Biblioteca} {l : Libro} {u : Unidad}
    (h : comprobar_estado_recurso b (.libro l) false = some u) :
    ∃ e, u = Unidad.ejemplar e := by
  have h2 : (match dlookup l b.libros with
      | some ejs => Option.map Unidad.ejemplar (buscarEjemplarParaPrestamo ejs false false)
      | none => none) = some u := h
  cases hdl : dlookup l b.libros with
  | none =>
    rw [hdl] at h2
    simp at h2
  | some ejs =>
    rw [hdl] at h2
    dsimp only at h2
    rcases Option.map_eq_some'.mp h2 with ⟨e, _, hue⟩
    exact ⟨e, hue.symm⟩

theorem dlookup_derase_ne {κ α : Type} [DecidableEq κ] {pid k : κ} (hne : pid ≠ k)
    (d : List (κ × α)) : dlookup pid (derase k d) = dlookup pid d := by
  induction d with
  | nil => rfl
  | cons hd tl ih =>
    obtain ⟨k2, w⟩ := hd
    simp only [derase]
    by_cases h2 : k2 = k
    · rw [if_pos h2, ih]
      show _ = if k2 = pid then some w else dlookup pid tl
      rw [if_neg (fun hh => hne (hh.symm.trans h2))]
    · rw [if_neg h2]
      show (if k2 = pid then some w else dlookup pid (derase k tl)) =
        if k2 = pid then some w else dlookup pid tl
      rw [ih]

theorem dlookup_dinsert_ne {κ α : Type} [DecidableEq κ] {pid k : κ} (v : α)
    (d : List (κ × α)) (hne : pid ≠ k) :
    dlookup pid (dinsert k v d) = dlookup pid d := by
  show (if k = pid then some v else dlookup pid (derase k d)) = _
  rw [if_neg (fun hh => hne hh.symm), dlookup_derase_ne hne d]

/-- The LoanRecord that a successful movie loan stores. -/
def nuevoPrestamoPelicula (socio : Socio) (p : Pelicula) (dia : Nat) (hora : String)
    (n : Nat) : Prestamo :=
  ⟨socio.nif, "PREST-" ++ pad10 n, .pelicula p, dia, hora, socio.nro_socio,
    dia + 7, none, 0⟩

/-- The duplicate-loan scenario, built by genuine operations from the
empty library: create the movie with both copies, register the member,
loan the movie, consult the same movie, return the consultation (whose
movie branch, line 980 of the source, clears estado_prestamo of the copy
at index 1 — the loan copy — instead of estado_local), then loan the
movie a second time. -/
def bDup0 : Biblioteca :=
  alta_socio (configurar_pelicula Biblioteca.init "Dune" "2024-03-01" ["A1"] ["B1"]
    "sci-fi" 2) "11111111H" "M" "600000000" "Calle 1"

def bDup1 : Biblioteca :=
  ((abrir_prestamo bDup0 "11111111H" (.pelicula pelC5) 0 "10:00:00").toOption).getD
    Biblioteca.init

def bDup2 : Biblioteca :=
  ((abrir_consulta bDup1 "11111111H" "M" "600000000" "Calle 1" (.pelicula pelC5) 0
    "10:30:00").toOption).getD Biblioteca.init

def bDup3 : Biblioteca :=
  ((devolver_uno bDup2 "11111111H" 1 0 "11:00:00").toOption).getD Biblioteca.init

def bDup4 : Biblioteca :=
  ((abrir_prestamo bDup3 "11111111H" (.pelicula pelC5) 2 "12:00:00").toOption).getD
    Biblioteca.init

/-- The member record inside bDup3: still holding the open movie loan,
consultation returned. -/
def socioDup3 : Socio :=
  ⟨"11111111H", "M", "600000000", "Calle 1", "S0000000001", ["PREST-0000000001"],
    none, some 0, some "10:30:00"⟩

/-- C5 counterexample. Two closed refutations of the claim as stated.
First, member M holds the open loan of movie Dune and the second OpenLoan
fails with NoCopyAvailable, not DuplicateHolding. Second, the clause
"creates no LoanRecord" fails outright: starting from the empty library,
after loan, consultation and consultation-return of the same movie (the
return branch frees the loan copy while the loan stays open), a second
OpenLoan by the same member succeeds and creates a second open LoanRecord
for the same movie, with both records open and both ids in the member's
list. -/
theorem C5_counterexample :
    ((∃ pid ∈ socioMp.ejemplares_prestados, ∃ pr,
      dlookup pid bC5.prestamos = some pr ∧ pr.id_recurso = .pelicula pelC5 ∧
      pr.fecha_devuelto = none) ∧
    dlookup "11111111H" bC5.socios = some socioMp ∧
    abrir_prestamo bC5 "11111111H" (.pelicula pelC5) 1 "11:00:00" =
      .error .noCopyAvailable ∧
    abrir_prestamo bC5 "11111111H" (.pelicula pelC5) 1 "11:00:00" ≠
      .error .duplicateHolding) ∧
    ((abrir_prestamo bDup0 "11111111H" (.pelicula pelC5) 0 "10:00:00" = .ok bDup1) ∧
    (abrir_consulta bDup1 "11111111H" "M" "600000000" "Calle 1" (.pelicula pelC5) 0
      "10:30:00" = .ok bDup2) ∧
    (devolver_uno bDup2 "11111111H" 1 0 "11:00:00" = .ok bDup3) ∧
    dlookup "11111111H" bDup3.socios = some socioDup3 ∧
    (dlookup "PREST-0000000001" bDup3.prestamos).map
      (fun pr => (pr.id_recurso, pr.fecha_devuelto)) = some (.pelicula pelC5, none) ∧
    dlookup pelC5 bDup3.peliculas =
      some [.biblioteca pelC5 true, .prestamo pelC5 false] ∧
    (abrir_prestamo bDup3 "11111111H" (.pelicula pelC5) 2 "12:00:00" = .ok bDup4) ∧
    (dlookup "PREST-0000000002" bDup4.prestamos).map
      (fun pr => (pr.id_recurso, pr.fecha_devuelto)) = some (.pelicula pelC5, none) ∧
    (dlookup "PREST-0000000001" bDup4.prestamos).map
      (fun pr => (pr.id_recurso, pr.fecha_devuelto)) = some (.pelicula pelC5, none) ∧
    (dlookup "11111111H" bDup4.socios).map (fun s => s.ejemplares_prestados) =
      some ["PREST-0000000001", "PREST-0000000002"]) := by
  decide

/-- The state produced by a successful movie loan: the loan copy is
marked, the new record stored under the next PREST id, and the id
appended to the member's list — exactly finalizarPrestamo applied after
the movie branch marks the copy. -/
def estadoPrestamoPelicula (b : Biblioteca) (nif : String) (socio : Socio)
    (p : Pelicula) (dia : Nat) (hora : String) : Biblioteca :=
  let ejs := (dlookup p b.peliculas).getD []
  let b1 : Biblioteca :=
    { b with peliculas := dinsert p (marcarPeliculaPrestamo ejs true) b.peliculas }
  let id_prestamo := "PREST-" ++ pad10 (b.nro_prestamo + 1)
  let pr := nuevoPrestamoPelicula socio p dia hora (b.nro_prestamo + 1)
  let socio2 :=
    { socio with ejemplares_prestados := socio.ejemplares_prestados ++ [id_prestamo] }
  { b1 with nro_prestamo := b.nro_prestamo + 1,
            prestamos := dinsert id_prestamo pr b1.prestamos,
            socios := dinsert nif socio2 b1.socios }

/-- C5 amended: the duplicate-resource guard exists only in the book
branch of the loan flow. For a book the member already holds (an id in
the open-loan list whose record references a copy of that book) a second
OpenLoan never returns ok: it fails with DuplicateHolding whenever the
availability check offers a copy, and with NoCopyAvailable when it
offers none. For a movie there is no guard: while the loan-role copy is
absent or still marked OnLoan the attempt fails with NoCopyAvailable
(not DuplicateHolding); and whenever the availability check finds the
loan copy free — which can happen with the member's loan still open,
as the consultation-return slip makes reachable — the second OpenLoan
succeeds and stores a second LoanRecord for the same movie, leaving
every other loan record untouched. -/
theorem C5_segundo_prestamo (b : Biblioteca) (nif : String) (socio : Socio)
    (dia : Nat) (hora : String) (hs : dlookup nif b.socios = some socio)
    (hq : socio.ejemplares_prestados.length < 3) :
    (∀ l : Libro,
      (∃ pid ∈ socio.ejemplares_prestados,
        ((dlookup pid b.prestamos).map
          (fun pr => refEsLibro pr.id_recurso l)).getD false = true) →
      (∀ b2, abrir_prestamo b nif (.libro l) dia hora ≠ .ok b2) ∧
      (∀ u, comprobar_estado_recurso b (.libro l) false = some u →
        abrir_prestamo b nif (.libro l) dia hora = .error .duplicateHolding) ∧
      (comprobar_estado_recurso b (.libro l) false = none →
        abrir_prestamo b nif (.libro l) dia hora = .error .noCopyAvailable)) ∧
    (∀ (p : Pelicula) (ejs : List EjemplarPelicula),
      dlookup p b.peliculas = some ejs →
      buscarPeliculaPrestamo ejs = none →
      abrir_prestamo b nif (.pelicula p) dia hora = .error .noCopyAvailable) ∧
    (∀ (p : Pelicula) (ejs : List EjemplarPelicula) (ej : EjemplarPelicula),
      dlookup p b.peliculas = some ejs →
      buscarPeliculaPrestamo ejs = some ej →
      ∃ b2, abrir_prestamo b nif (.pelicula p) dia hora = .ok b2 ∧
        dlookup ("PREST-" ++ pad10 (b.nro_prestamo + 1)) b2.prestamos =
          some (nuevoPrestamoPelicula socio p dia hora (b.nro_prestamo + 1)) ∧
        (∀ pid, pid ≠ "PREST-" ++ pad10 (b.nro_prestamo + 1) →
          dlookup pid b2.prestamos = dlookup pid b.prestamos)) := by
  have hq2 : ¬ socio.ejemplares_prestados.length ≥ 3 := by omega
  refine ⟨?_, ?_, ?_⟩
  · intro l hholds
    have hdup := tieneLibro_of_holds hholds
    refine ⟨?_, ?_, ?_⟩
    · intro b2 hok
      unfold abrir_prestamo at hok
      rw [hs] at hok
      dsimp only at hok
      rw [if_neg hq2] at hok
      split at hok
      · simp at hok
      · split at hok
        · rename_i l2 e2 hreq hcomp2
          injection hreq with hl
          subst hl
          rw [if_pos hdup] at hok
          simp at hok
        · rename_i p2 hreq hcomp2
          simp at hreq
        · simp at hok
    · intro u hcomp
      obtain ⟨e, rfl⟩ := comprobar_libro_shape hcomp
      unfold abrir_prestamo
      rw [hs]
      dsimp only
      rw [if_neg hq2, hcomp]
      dsimp only
      rw [if_pos hdup]
    · intro hcomp
      unfold abrir_prestamo
      rw [hs]
      dsimp only
      rw [if_neg hq2, hcomp]
  · intro p ejs hdl hbusca
    have hcomp : comprobar_estado_recurso b (.pelicula p) false = none := by
      show (match dlookup p b.peliculas with
            | some ejs => Option.map Unidad.peliculaCopia (buscarPeliculaPrestamo ejs)
            | none => none) = none
      rw [hdl]
      show Option.map Unidad.peliculaCopia (buscarPeliculaPrestamo ejs) = none
      rw [hbusca]
      rfl
    unfold abrir_prestamo
    rw [hs]
    dsimp only
    rw [if_neg hq2, hcomp]
  · intro p ejs ej hdl hbp
    have hcomp : comprobar_estado_recurso b (.pelicula p) false =
        some (.peliculaCopia ej) := by
      show (match dlookup p b.peliculas with
            | some ejs => Option.map Unidad.peliculaCopia (buscarPeliculaPrestamo ejs)
            | none => none) = some (Unidad.peliculaCopia ej)
      rw [hdl]
      show Option.map Unidad.peliculaCopia (buscarPeliculaPrestamo ejs) = _
      rw [hbp]
      rfl
    have hok : abrir_prestamo b nif (.pelicula p) dia hora =
        .ok (estadoPrestamoPelicula b nif socio p dia hora) := by
      unfold abrir_prestamo
      rw [hs]
      dsimp only
      rw [if_neg hq2, hcomp]
      dsimp only
      rfl
    refine ⟨estadoPrestamoPelicula b nif socio p dia hora, hok, ?_, ?_⟩
    · exact dlookup_dinsert_self _ _ _
    · intro pid hne
      exact dlookup_dinsert_ne
        (nuevoPrestamoPelicula socio p dia hora (b.nro_prestamo + 1)) b.prestamos hne

def libroC5 : Libro := ⟨"L0000000002", "novela", "Autor", "Titulo", "Ed"⟩

def prestC5b : Prestamo :=
  ⟨"22222222J", "PREST-0000000002", .ejemplarLibro libroC5 3 "Prestamo", 0,
    "10:00:00", "S0000000002", 7, none, 0⟩

def socioNp : Socio := { socioN with ejemplares_prestados := ["PREST-0000000002"] }

def bC5b : Biblioteca := { Biblioteca.init with
  libros := [(libroC5, [⟨libroC5, 1, ""⟩, ⟨libroC5, 2, ""⟩, ⟨libroC5, 3, "Prestamo"⟩])],
  prestamos := [("PREST-0000000002", prestC5b)],
  socios := [("22222222J", socioNp)] }

theorem C5_witness :
    abrir_prestamo bC5b "22222222J" (.libro libroC5) 1 "11:00:00" =
      .error .duplicateHolding ∧
    abrir_prestamo bC5 "11111111H" (.pelicula pelC5) 1 "11:00:00" =
      .error .noCopyAvailable ∧
    (∃ b2, abrir_prestamo bDup3 "11111111H" (.pelicula pelC5) 2 "12:00:00" = .ok b2 ∧
      dlookup ("PREST-" ++ pad10 (bDup3.nro_prestamo + 1)) b2.prestamos =
        some (nuevoPrestamoPelicula socioDup3 pelC5 2 "12:00:00"
          (bDup3.nro_prestamo + 1)) ∧
      (∀ pid, pid ≠ "PREST-" ++ pad10 (bDup3.nro_prestamo + 1) →
        dlookup pid b2.prestamos = dlookup pid bDup3.prestamos)) :=
  ⟨((C5_segundo_prestamo bC5b "22222222J" socioNp 1 "11:00:00" (by decide)
      (by decide)).1 libroC5 (by decide)).2.1 (Unidad.ejemplar ⟨libroC5, 2, ""⟩)
      (by decide),
   (C5_segundo_prestamo bC5 "11111111H" socioMp 1 "11:00:00" (by decide)
      (by decide)).2.1 pelC5 [.biblioteca pelC5 false, .prestamo pelC5 true]
      (by decide) (by decide),
   (C5_segundo_prestamo bDup3 "11111111H" socioDup3 2 "12:00:00" (by decide)
      (by decide)).2.2 pelC5 [.biblioteca pelC5 true, .prestamo pelC5 false]
      (.prestamo pelC5 false) (by decide) (by decide)⟩


def pelC6 : Pelicula := ⟨"P0000000002", "neo-noir", "Blade", ["A"], [], "2024-01-01"⟩

def bC6 : Biblioteca := { Biblioteca.init with
  peliculas := [(pelC6, [.biblioteca pelC6 false, .prestamo pelC6 true])] }

/-- C6: the claim fails on the code for movies. With the loan copy
OnLoan (estado_prestamo true), selecting (P) on the removal screen
deletes that busy copy and (T) empties the whole copy list; no
ResourceInUse refusal happens and the catalog changes, contradicting the
docstring of mostrar_menu_eliminar_recurso (the book and magazine
branches do refuse as the claim states). -/
theorem C6_eliminar_pelicula_en_uso :
    dlookup pelC6 bC6.peliculas =
      some [.biblioteca pelC6 false, .prestamo pelC6 true] ∧
    dlookup pelC6 (eliminar_ejemplar_pelicula bC6 pelC6 .P).peliculas =
      some [.biblioteca pelC6 false] ∧
    dlookup pelC6 (eliminar_ejemplar_pelicula bC6 pelC6 .T).peliculas = some [] := by
  decide

def prestC7 : Prestamo :=
  ⟨"11111111H", "PREST-0000000001", .pelicula pelC5, 0, "10:00:00", "S0000000001",
    7, none, 3⟩

def socioC7 : Socio := { socioM with ejemplares_prestados := ["PREST-0000000001"] }

def bC7 : Biblioteca := { Biblioteca.init with
  prestamos := [("PREST-0000000001", prestC7)],
  socios := [("11111111H", socioC7)] }

/-- C7: a permitted renewal replaces the loan record by its renewed
version, whose renovacion is exactly the old value plus one; renovacion
never exceeds 3 in any reachable state; and a renewal attempt on a loan
whose renovacion is already 3 fails with the limit error before any
mutation. -/
theorem C7_renovacion_limite :
    (∀ (b b2 : Biblioteca) (nif : String) (idx hoy : Nat) (saltar : Bool),
      renovar b nif idx hoy saltar = .ok b2 →
      ∃ pid pr, dlookup pid b.prestamos = some pr ∧
        dlookup pid b2.prestamos = some (prestamoRenovado pr hoy) ∧
        (prestamoRenovado pr hoy).renovacion = pr.renovacion + 1) ∧
    (∀ b : Biblioteca, Alcanzable b → renovacionOk b) ∧
    (∀ (b : Biblioteca) (nif : String) (idx hoy : Nat) (saltar : Bool)
      (socio : Socio) (pid : String) (pr : Prestamo),
      dlookup nif b.socios = some socio →
      socio.ejemplares_prestados[idx]? = some pid →
      dlookup pid b.prestamos = some pr →
      pr.renovacion = 3 →
      renovar b nif idx hoy saltar = .error .renewalLimitReached) := by
  refine ⟨?_, fun b h => renovacionOk_alcanzable h, ?_⟩
  · intro b b2 nif idx hoy saltar h
    obtain ⟨pid, pr, hpr, hlt, hb2⟩ := renovar_ok h
    subst hb2
    refine ⟨pid, pr, hpr, dlookup_dinsert_self pid _ b.prestamos, ?_⟩
    unfold prestamoRenovado
    split <;> rfl
  · intro b nif idx hoy saltar socio pid pr hs hidx hr h3
    unfold renovar
    rw [hs]
    dsimp only
    rw [hidx]
    dsimp only
    rw [hr]
    dsimp only
    rw [if_pos (show pr.renovacion ≥ 3 by omega)]

def prestC8a : Prestamo :=
  ⟨"11111111H", "PREST-0000000001", .ejemplarLibro libroC5 1 "Prestamo", 3,
    "10:00:00", "S0000000001", 10, none, 0⟩

def prestC8b : Prestamo :=
  ⟨"11111111H", "PREST-0000000002", .pelicula pelC5, 3, "10:00:00", "S0000000001",
    10, none, 1⟩

def socioC8 : Socio :=
  { socioM with ejemplares_prestados := ["PREST-0000000001", "PREST-0000000002"] }

def bC8 : Biblioteca := { Biblioteca.init with
  prestamos := [("PREST-0000000001", prestC8a), ("PREST-0000000002", prestC8b)],
  socios := [("11111111H", socioC8)] }

/-- The renovar result used as concrete witness input for C7. -/
def bC8ren : Biblioteca :=
  ((renovar bC8 "11111111H" 0 9 false).toOption).getD Biblioteca.init

theorem C7_witness :
    (∃ pid pr, dlookup pid bC8.prestamos = some pr ∧
      dlookup pid bC8ren.prestamos = some (prestamoRenovado pr 9) ∧
      (prestamoRenovado pr 9).renovacion = pr.renovacion + 1) ∧
    renovacionOk Biblioteca.init ∧
    renovar bC7 "11111111H" 0 5 false = .error .renewalLimitReached :=
  ⟨C7_renovacion_limite.1 bC8 bC8ren "11111111H" 0 9 false (by decide),
   C7_renovacion_limite.2.1 Biblioteca.init Relation.ReflTransGen.refl,
   C7_renovacion_limite.2.2 bC7 "11111111H" 0 5 false socioC7 "PREST-0000000001"
     prestC7 (by decide) (by decide) (by decide) (by decide)⟩

/-- A book loan after renewal: due date extended by 7 days. -/
def prestamoLibroRenovado (pr : Prestamo) : Prestamo :=
  { pr with fecha_max_devolucion := pr.fecha_max_devolucion + 7,
            renovacion := pr.renovacion + 1 }

/-- A movie loan after renewal: due date reset to today + 2 days. -/
def prestamoPeliculaRenovado (pr : Prestamo) (hoy : Nat) : Prestamo :=
  { pr with fecha_max_devolucion := hoy + 2, renovacion := pr.renovacion + 1 }

/-- The library state after a loan record is replaced by its renewed
version. -/
def estadoRenovado (b : Biblioteca) (pid : String) (pr2 : Prestamo) : Biblioteca :=
  { b with prestamos := dinsert pid pr2 b.prestamos }

/-- C8: on a permitted renewal (count below 3, not overdue, window open
or overridden), a loan whose stored reference is a book copy gets due =
old due + 7 days, and a loan whose reference is a movie gets due =
today + 2 days. -/
theorem C8_renovacion_fechas (b : Biblioteca) (nif : String) (idx hoy : Nat)
    (saltar : Bool) (socio : Socio) (pid : String) (pr : Prestamo)
    (hs : dlookup nif b.socios = some socio)
    (hidx : socio.ejemplares_prestados[idx]? = some pid)
    (hr : dlookup pid b.prestamos = some pr)
    (h3 : pr.renovacion < 3)
    (h4 : ¬ pr.fecha_max_devolucion < hoy)
    (h5 : pr.fecha_max_devolucion < hoy + 3 ∨ saltar = true) :
    (∀ (l : Libro) (nro : Nat) (est : String),
      pr.id_recurso = .ejemplarLibro l nro est →
      renovar b nif idx hoy saltar =
        .ok (estadoRenovado b pid (prestamoLibroRenovado pr))) ∧
    (∀ p : Pelicula, pr.id_recurso = .pelicula p →
      renovar b nif idx hoy saltar =
        .ok (estadoRenovado b pid (prestamoPeliculaRenovado pr hoy))) := by
  have hw : ¬ (pr.fecha_max_devolucion ≥ hoy + 3 ∧ saltar = false) := by
    rcases h5 with h | h
    · intro hc
      omega
    · intro hc
      rw [h] at hc
      exact absurd hc.2 (by simp)
  constructor
  · intro l nro est hid
    unfold renovar
    rw [hs]
    dsimp only
    rw [hidx]
    dsimp only
    rw [hr]
    dsimp only
    rw [if_neg (show ¬ pr.renovacion ≥ 3 by omega), if_neg h4, if_neg hw, hid]
    dsimp only
    rw [← hid]
    rfl
  · intro p hid
    unfold renovar
    rw [hs]
    dsimp only
    rw [hidx]
    dsimp only
    rw [hr]
    dsimp only
    rw [if_neg (show ¬ pr.renovacion ≥ 3 by omega), if_neg h4, if_neg hw, hid]
    dsimp only
    rw [← hid]
    rfl

def bC8renA : Biblioteca :=
  estadoRenovado bC8 "PREST-0000000001" (prestamoLibroRenovado prestC8a)

def bC8renB : Biblioteca :=
  estadoRenovado bC8 "PREST-0000000002" (prestamoPeliculaRenovado prestC8b 9)

theorem C8_witness :
    renovar bC8 "11111111H" 0 9 false = .ok bC8renA ∧
    renovar bC8 "11111111H" 1 9 false = .ok bC8renB :=
  ⟨(C8_renovacion_fechas bC8 "11111111H" 0 9 false socioC8 "PREST-0000000001"
      prestC8a (by decide) (by decide) (by decide) (by decide) (by decide)
      (Or.inl (by decide))).1 libroC5 1 "Prestamo" rfl,
   (C8_renovacion_fechas bC8 "11111111H" 1 9 false socioC8 "PREST-0000000002"
      prestC8b (by decide) (by decide) (by decide) (by decide) (by decide)
      (Or.inl (by decide))).2 pelC5 rfl⟩

/-- C9: the loan flow looks the national id up only among members, so
any holder who is not a registered member (casual users included) always
fails with the member-does-not-exist error and no LoanRecord is created
nor any copy marked. -/
theorem C9_prestamo_solo_socios (b : Biblioteca) (nif : String) (r : Recurso)
    (dia : Nat) (hora : String) (h : dlookup nif b.socios = none) :
    abrir_prestamo b nif r dia hora = .error .socioNoExiste := by
  unfold abrir_prestamo
  rw [h]

def ocasionalC9 : Ocasional :=
  ⟨"55555555K", "Walkin", "600000004", "Calle 5", none, none, none⟩

def bC9 : Biblioteca := { bC1 with ocasionales := [("55555555K", ocasionalC9)] }

theorem C9_witness :
    abrir_prestamo bC9 "55555555K" (.libro libroC1) 0 "10:00:00" =
      .error .socioNoExiste :=
  C9_prestamo_solo_socios bC9 "55555555K" (.libro libroC1) 0 "10:00:00" (by decide)

def bC10a : Biblioteca := configurar_libro Biblioteca.init "T1" "A" "E" "D" 1

def bC10b : Biblioteca := configurar_libro bC10a "T2" "A" "E" "D" 1

def bC10c : Biblioteca := configurar_libro bC10b "T3" "A" "E" "D" 1

def bC10d : Biblioteca :=
  configurar_libro (cargar_datos (guardar_datos bC10c)) "T4" "A" "E" "D" 1

def libroCuarto : Libro := ⟨"L0000000004", "D", "A", "T4", "E"⟩

/-- C10: the snapshot stores every sequence counter and loading restores
them, so cargar after guardar is the identity; creating three books,
saving, loading and creating a fourth leaves the book counter at 4, the
fourth book is present under id L0000000004, and the four generated ids
are pairwise distinct. -/
theorem C10_contadores_persisten :
    (∀ b : Biblioteca, cargar_datos (guardar_datos b) = b) ∧
    bC10c.nro_id_libro = 3 ∧
    bC10d.nro_id_libro = 4 ∧
    (dlookup libroCuarto bC10d.libros).isSome = true ∧
    (bC10d.libros.map (fun kv => (Prod.fst kv).id)).Nodup ∧
    (bC10d.libros.map (fun kv => (Prod.fst kv).id)).length = 4 :=
  ⟨fun _ => rfl, by decide, by decide, by decide, by decide, by decide⟩
